import Mathlib

/-!
# Object schema type (`typeTypeBsonObject.go`)

A shallow embedding of the object validator: the build step `Populate` with
`populateRequired`, the min/max property readers, `populateBsonType`,
`getPropertyBsonTypeAsSlice` and the type dispatcher
`typeStringToTypeObjectPopulated`, and the check `Verify`.

Conventions of the embedding.

* A decoded schema document (`map[string]interface{}`) is an association list
  `Schema`; `schema["k"]` is `mapGet schema "k"` and `range` visits the entries
  in list order.  Go leaves the iteration order of a map unspecified, so a
  statement quantified over every `Schema` covers every order.
* A `nil` map is `none`, a map made with `make` is `some []`.
* A function returning `(..., err error)` returns its results paired with an
  `Option GoError`; `none` is the `nil` error.
* A failed unchecked type assertion (`x.(T)`) panics.  A function that can
  panic returns an `Option` whose `none` is the panic.
* The code of the package that is not in this file (the common-fields parser,
  the integer reader and `Populate` of the eight other variants) is a
  parameter, `Collaborators`; the two checks called by `Verify` are a
  parameter, `Verifiers`.
-/

namespace BsonObject

/-! ## Data model -/

/-- An `error` value, identified by its message. -/
abbrev GoError := String

/-- A decoded `interface{}` value as found in a schema document. -/
inductive Value where
  | null
  | bool (b : Bool)
  | num (n : Int)
  | str (s : String)
  | arr (xs : List Value)
  | obj (kvs : List (String × Value))

/-- The Go type `map[string]interface{}`: the entries of a decoded schema node. -/
abbrev Schema := List (String × Value)

/-- Map read `m[k]` with the comma-ok result: the first entry stored under `k`. -/
def mapGet {β : Type} (m : List (String × β)) (k : String) : Option β :=
  match m with
  | [] => none
  | (k', v) :: rest => if k' = k then some v else mapGet rest k

/-- Map write `m[k] = v`: replaces the entry under `k`, or adds one. -/
def mapSet {β : Type} (m : List (String × β)) (k : String) (v : β) : List (String × β) :=
  match m with
  | [] => [(k, v)]
  | (k', v') :: rest => if k' = k then (k, v) :: rest else (k', v') :: mapSet rest k v

/-- The struct `BsonType`, a schema node holding one element (`nil` is `none`). -/
structure BsonTypeOf (ι : Type) where
  ElementType : Option ι

/-- The fields of the struct `TypeBsonObject`; `κ` is the embedded
`TypeBsonCommonToAllTypes`, `β` the type of the child schema nodes. -/
structure TypeBsonObjectOf (κ β : Type) where
  Common : κ
  Properties : Option (List (String × List (String × β)))
  MinPropertiesHasSet : Bool
  MinProperties : Int
  MaxPropertiesHasSet : Bool
  MaxProperties : Int
  PatternProperties : List (String × List (String × β))
  AdditionalPropertiesBoolIsSet : Bool
  AdditionalPropertiesBoolValue : Bool
  AdditionalPropertiesMap : Option (List (String × List (String × β)))
  Dependencies : Option (List (String × List (String × β)))
  Required : Option (List (String × Bool))

/-- The values of the interface `InterfaceBson` that the dispatcher builds: one
constructor for each variant.  `δ` is the populated state of a variant other
than the object. -/
inductive InterfaceBson (κ δ : Type) where
  | TypeBsonGeneric (d : δ)
  | TypeBsonObject (o : TypeBsonObjectOf κ (BsonTypeOf (InterfaceBson κ δ)))
  | TypeBsonDouble (d : δ)
  | TypeBsonString (d : δ)
  | TypeBsonArray (d : δ)
  | TypeBsonBool (d : δ)
  | TypeBsonInt (d : δ)
  | TypeBsonLong (d : δ)
  | TypeBsonDecimal (d : δ)

/-- The struct `BsonType`. -/
abbrev BsonType (κ δ : Type) := BsonTypeOf (InterfaceBson κ δ)

/-- The struct `TypeBsonObject`. -/
abbrev TypeBsonObject (κ δ : Type) := TypeBsonObjectOf κ (BsonType κ δ)

/-- The Go type `map[string]map[string]BsonType`. -/
abbrev Properties (κ δ : Type) := List (String × List (String × BsonType κ δ))

/-- The functions of the package that `typeTypeBsonObject.go` calls and does
not define.  `populateGeneric` is the common-fields parser acting on the
embedded `TypeBsonCommonToAllTypes`; `getPropertyAsInt64` reads an integer
key; the eight `populate*` fields are `Populate` run on a fresh value of the
variant, giving the populated value and the error. -/
structure Collaborators (κ δ : Type) where
  zeroCommon : κ
  populateGeneric : κ → Schema → κ × Option GoError
  getPropertyAsInt64 : Schema → String → Int × Option GoError
  populateTypeBsonGeneric : Schema → δ × Option GoError
  populateTypeBsonDouble : Schema → δ × Option GoError
  populateTypeBsonString : Schema → δ × Option GoError
  populateTypeBsonArray : Schema → δ × Option GoError
  populateTypeBsonBool : Schema → δ × Option GoError
  populateTypeBsonInt : Schema → δ × Option GoError
  populateTypeBsonLong : Schema → δ × Option GoError
  populateTypeBsonDecimal : Schema → δ × Option GoError

/-- The zero value `TypeBsonObject{}`. -/
def zeroObject {κ δ : Type} (env : Collaborators κ δ) : TypeBsonObject κ δ :=
  { Common := env.zeroCommon
    Properties := none
    MinPropertiesHasSet := false
    MinProperties := 0
    MaxPropertiesHasSet := false
    MaxProperties := 0
    PatternProperties := []
    AdditionalPropertiesBoolIsSet := false
    AdditionalPropertiesBoolValue := false
    AdditionalPropertiesMap := none
    Dependencies := none
    Required := none }

/-! ## `populateRequired` -/

/-- The loop of `populateRequiredSupport` (lines 136-142) over the rest of the
list; `none` when `requiredKeyName.(string)` panics. -/
def requiredLoop (key : String) (requiredList : List Value)
    (required : List (String × Bool)) : Option (List (String × Bool)) :=
  match requiredList with
  | [] => some required
  | Value.str name :: rest =>
    requiredLoop key rest (mapSet required (if key ≠ "" then key ++ "." ++ name else name) true)
  | _ :: _ => none

/-- The method `populateRequiredSupport`: the value left at `requiredPointer`
and the error. -/
def populateRequiredSupport (requiredPointer : Option (List (String × Bool))) (key : String)
    (schema : Schema) : Option (Option (List (String × Bool)) × Option GoError) :=
  match mapGet schema "required" with
  | some (Value.arr requiredList) =>
    match requiredLoop key requiredList (requiredPointer.getD []) with
    | none => none
    | some required => some (some required, none)
  | _ => some (requiredPointer, none)

/-- The method `populateRequired`: the object afterwards and the error. -/
def populateRequired {κ δ : Type} (el : TypeBsonObject κ δ) (schema : Schema) :
    Option (TypeBsonObject κ δ × Option GoError) :=
  match populateRequiredSupport el.Required "" schema with
  | none => none
  | some (required, err) => some ({ el with Required := required }, err)

/-! ## The min/max property readers -/

/-- The method `getPropertyMinProperties`. -/
def getPropertyMinProperties {κ δ : Type} (env : Collaborators κ δ) (schema : Schema) :
    Bool × Int × Option GoError :=
  match mapGet schema "minProperties" with
  | none => (false, 0, none)
  | some _ =>
    let r := env.getPropertyAsInt64 schema "minProperties"
    (true, r.1, r.2)

/-- The method `getPropertyMaxProperties`. -/
def getPropertyMaxProperties {κ δ : Type} (env : Collaborators κ δ) (schema : Schema) :
    Bool × Int × Option GoError :=
  match mapGet schema "maxProperties" with
  | none => (false, 0, none)
  | some _ =>
    let r := env.getPropertyAsInt64 schema "maxProperties"
    (true, r.1, r.2)

/-! ## `getPropertyBsonTypeAsSlice` -/

/-- The loop of `getPropertyBsonTypeAsSlice` (lines 240-247) over the rest of
the array, `value` being the slice built so far. -/
def bsonTypeLoop (vs : List Value) (value : List String) : List String × Option GoError :=
  match vs with
  | [] => (value, none)
  | Value.str s :: rest => bsonTypeLoop rest (value ++ [s])
  | _ :: _ => (value, some "the 'bsonType' values must be a string")

/-- The method `getPropertyBsonTypeAsSlice`. -/
def getPropertyBsonTypeAsSlice (schema : Schema) : List String × Option GoError :=
  match mapGet schema "bsonType" with
  | none => ([], none)
  | some (Value.arr vs) => bsonTypeLoop vs []
  | some (Value.str s) => ([s], none)
  | some _ => ([], some "the 'bsonType' a string or a array of string")


/-! ## The recursive build -/

/-- How the `switch` of the dispatcher was left: by a `return` inside a case,
or by reaching the statements after it with `objType` and `err`. -/
inductive SwitchExit (ι : Type) where
  | returned (err : GoError)
  | fellOut (objType : Option ι) (err : Option GoError)

/-- How a `for` loop of `populateBsonType` was left: by running to its end, or
by the `return` of line 219.  Both carry `properties` and `err`. -/
inductive LoopExit (π : Type) where
  | finished (properties : π) (err : Option GoError)
  | returned (properties : π) (err : Option GoError)

/-- The results `(properties, err)` of `populateBsonType` at a loop exit. -/
def LoopExit.results {π : Type} : LoopExit π → π × Option GoError
  | LoopExit.finished properties err => (properties, err)
  | LoopExit.returned properties err => (properties, err)

/-- The statement `(*propertiesPointer)[key][typeString] = BsonType{...}` with
the `make` of lines 373-375. -/
def storeElement {κ δ : Type} (properties : Properties κ δ) (key typeString : String)
    (objType : Option (InterfaceBson κ δ)) : Properties κ δ :=
  mapSet properties key (mapSet ((mapGet properties key).getD []) typeString ⟨objType⟩)

/-- One case of the `switch` for a variant other than the object: the fresh
value has been populated with result `r`; `return` on an error. -/
def switchCase {κ δ : Type} (mk : δ → InterfaceBson κ δ) (r : δ × Option GoError) :
    SwitchExit (InterfaceBson κ δ) :=
  match r.2 with
  | some e => SwitchExit.returned e
  | none => SwitchExit.fellOut (some (mk r.1)) none

set_option linter.unusedVariables false

mutual

/-- The method `Populate` of `TypeBsonObject`: the object afterwards and the error. -/
def Populate {κ δ : Type} (env : Collaborators κ δ) (el : TypeBsonObject κ δ) (schema : Schema) :
    Option (TypeBsonObject κ δ × Option GoError) :=
  match env.populateGeneric el.Common schema with
  | (common, some e) => some ({ el with Common := common }, some e)
  | (common, none) =>
    match getPropertyMinProperties env schema with
    | (set, minimum, some e) =>
      some ({ el with Common := common, MinPropertiesHasSet := set, MinProperties := minimum },
        some e)
    | (set, minimum, none) =>
      match getPropertyMaxProperties env schema with
      | (set', maximum, some e) =>
        some ({ el with Common := common, MinPropertiesHasSet := set, MinProperties := minimum,
                        MaxPropertiesHasSet := set', MaxProperties := maximum }, some e)
      | (set', maximum, none) =>
        match populateRequired
            { el with Common := common, MinPropertiesHasSet := set, MinProperties := minimum,
                      MaxPropertiesHasSet := set', MaxProperties := maximum } schema with
        | none => none
        | some (el', some e) => some (el', some e)
        | some (el', none) =>
          match populateBsonType env schema with
          | none => none
          | some (properties, err) => some ({ el' with Properties := some properties }, err)
termination_by (sizeOf schema, 2, 0)

/-- The method `populateBsonType`. -/
def populateBsonType {κ δ : Type} (env : Collaborators κ δ) (schema : Schema) :
    Option (Properties κ δ × Option GoError) :=
  match h : mapGet schema "properties" with
  | some (Value.obj newSchema) =>
    match populateCells env newSchema [] none with
    | none => none
    | some exit => some exit.results
  | _ => some ([], none)
termination_by (sizeOf schema, 1, 0)
decreasing_by
  all_goals simp_wf
  have stored : ∀ (m : Schema) (k : String) (v : Value),
      mapGet m k = some v → sizeOf v < sizeOf m := by
    intro m k v
    induction m with
    | nil => intro hm; simp [mapGet] at hm
    | cons kv rest ih =>
      obtain ⟨k', v'⟩ := kv
      intro hm
      unfold mapGet at hm
      split at hm
      · injection hm with hm
        subst hm
        simp
        omega
      · have := ih hm
        simp
        omega
  have := stored _ _ _ h
  simp at this
  exact Prod.Lex.left _ _ (by omega)

/-- The outer loop of `populateBsonType` (lines 208-222) over the rest of the
entries of `newSchema`. -/
def populateCells {κ δ : Type} (env : Collaborators κ δ) (cells : List (String × Value))
    (properties : Properties κ δ) (err : Option GoError) :
    Option (LoopExit (Properties κ δ)) :=
  match cells with
  | [] => some (LoopExit.finished properties err)
  | (schemaCellKey, Value.obj schemaCell) :: rest =>
    match populateTypes env schemaCellKey schemaCell (getPropertyBsonTypeAsSlice schemaCell).1
        properties (getPropertyBsonTypeAsSlice schemaCell).2 with
    | none => none
    | some (LoopExit.returned properties' err') => some (LoopExit.returned properties' err')
    | some (LoopExit.finished properties' err') => populateCells env rest properties' err'
  | _ :: _ => none
termination_by (sizeOf cells, 0, 0)

/-- The inner loop of `populateBsonType` (lines 213-221) over the rest of
`typesInCell`. -/
def populateTypes {κ δ : Type} (env : Collaborators κ δ) (schemaCellKey : String)
    (schemaCell : Schema) (typesInCell : List String) (properties : Properties κ δ)
    (err : Option GoError) : Option (LoopExit (Properties κ δ)) :=
  match typesInCell with
  | [] => some (LoopExit.finished properties err)
  | currentType :: rest =>
    match typeStringToTypeObjectPopulated env (some properties) schemaCellKey currentType
        schemaCell with
    | none => none
    | some (properties', some e) => some (LoopExit.returned properties' (some e))
    | some (properties', none) => populateTypes env schemaCellKey schemaCell rest properties' none
termination_by (sizeOf schemaCell, 5, typesInCell.length)

/-- The method `typeStringToTypeObjectPopulated`: the map left at
`propertiesPointer` and the error. -/
def typeStringToTypeObjectPopulated {κ δ : Type} (env : Collaborators κ δ)
    (propertiesPointer : Option (Properties κ δ)) (key typeString : String) (schema : Schema) :
    Option (Properties κ δ × Option GoError) :=
  match switchTypeString env typeString schema with
  | none => none
  | some (SwitchExit.returned e) => some (propertiesPointer.getD [], some e)
  | some (SwitchExit.fellOut objType err) =>
    some (storeElement (propertiesPointer.getD []) key typeString objType, err)
termination_by (sizeOf schema, 4, 0)

/-- The `switch typeString` of `typeStringToTypeObjectPopulated` (lines 268-371). -/
def switchTypeString {κ δ : Type} (env : Collaborators κ δ) (typeString : String)
    (schema : Schema) : Option (SwitchExit (InterfaceBson κ δ)) :=
  if typeString = "generic" then
    some (switchCase InterfaceBson.TypeBsonGeneric (env.populateTypeBsonGeneric schema))
  else if typeString = "object" then
    match Populate env (zeroObject env) schema with
    | none => none
    | some (_, some e) => some (SwitchExit.returned e)
    | some (o, none) => some (SwitchExit.fellOut (some (InterfaceBson.TypeBsonObject o)) none)
  else if typeString = "double" then
    some (switchCase InterfaceBson.TypeBsonDouble (env.populateTypeBsonDouble schema))
  else if typeString = "string" then
    some (switchCase InterfaceBson.TypeBsonString (env.populateTypeBsonString schema))
  else if typeString = "array" then
    some (switchCase InterfaceBson.TypeBsonArray (env.populateTypeBsonArray schema))
  else if typeString = "bool" then
    some (switchCase InterfaceBson.TypeBsonBool (env.populateTypeBsonBool schema))
  else if typeString = "int" then
    some (switchCase InterfaceBson.TypeBsonInt (env.populateTypeBsonInt schema))
  else if typeString = "timestamp" then
    some (SwitchExit.fellOut none none)
  else if typeString = "long" then
    some (switchCase InterfaceBson.TypeBsonLong (env.populateTypeBsonLong schema))
  else if typeString = "decimal" then
    some (switchCase InterfaceBson.TypeBsonDecimal (env.populateTypeBsonDecimal schema))
  else
    some (SwitchExit.fellOut none (some "type not implemented yet"))
termination_by (sizeOf schema, 3, 0)

end

set_option linter.unusedVariables true


/-! ## `Verify` -/

/-- The two checks that `Verify` calls and that `typeTypeBsonObject.go` does not
define.  Both are methods of the object called without argument, so each is a
function of the object alone. -/
structure Verifiers (κ δ : Type) where
  verifyMaxProperties : TypeBsonObject κ δ → Option GoError
  verifyMinProperties : TypeBsonObject κ δ → Option GoError

set_option linter.unusedVariables false

/-- The method `Verify` of `TypeBsonObject`. -/
def Verify {κ δ : Type} (checks : Verifiers κ δ) (el : TypeBsonObject κ δ) (value : Value) :
    Option GoError :=
  match checks.verifyMaxProperties el with
  | some e => some e
  | none => checks.verifyMinProperties el

set_option linter.unusedVariables true

/-! ## Derived definitions used to state the properties -/

/-- Lines 73-91 of `Populate`: the common fields, the two bounds and the
required names; the object afterwards and the error. -/
def populateHead {κ δ : Type} (env : Collaborators κ δ) (el : TypeBsonObject κ δ)
    (schema : Schema) : Option (TypeBsonObject κ δ × Option GoError) :=
  match env.populateGeneric el.Common schema with
  | (common, some e) => some ({ el with Common := common }, some e)
  | (common, none) =>
    match getPropertyMinProperties env schema with
    | (set, minimum, some e) =>
      some ({ el with Common := common, MinPropertiesHasSet := set, MinProperties := minimum },
        some e)
    | (set, minimum, none) =>
      match getPropertyMaxProperties env schema with
      | (set', maximum, some e) =>
        some ({ el with Common := common, MinPropertiesHasSet := set, MinProperties := minimum,
                        MaxPropertiesHasSet := set', MaxProperties := maximum }, some e)
      | (set', maximum, none) =>
        populateRequired
            { el with Common := common, MinPropertiesHasSet := set, MinProperties := minimum,
                      MaxPropertiesHasSet := set', MaxProperties := maximum } schema

/-- The value of `newSchema` after line 207: the raw `properties` mapping, and
no entries when the key is absent or does not hold a mapping. -/
def rawProperties (schema : Schema) : List (String × Value) :=
  match mapGet schema "properties" with
  | some (Value.obj newSchema) => newSchema
  | _ => []

/-- The nine type names of the variant set. -/
def recognizedNames : List String :=
  ["generic", "object", "double", "string", "array", "bool", "int", "long", "decimal"]

/-- The variant matching a type name, built fresh and populated from a schema
node, with the error of its `Populate`: `generic` is Generic, `object` Object,
`double` Double, `string` String, `array` Array, `bool` Bool, `int` Int32,
`long` Int64 and `decimal` Decimal.  No result for another name, nor when the
`Populate` of the object panics. -/
def populateVariant {κ δ : Type} (env : Collaborators κ δ) (n : String) (s : Schema) :
    Option (InterfaceBson κ δ × Option GoError) :=
  if n = "generic" then
    some (InterfaceBson.TypeBsonGeneric (env.populateTypeBsonGeneric s).1,
      (env.populateTypeBsonGeneric s).2)
  else if n = "object" then
    match Populate env (zeroObject env) s with
    | none => none
    | some (o, err) => some (InterfaceBson.TypeBsonObject o, err)
  else if n = "string" then
    some (InterfaceBson.TypeBsonString (env.populateTypeBsonString s).1,
      (env.populateTypeBsonString s).2)
  else if n = "array" then
    some (InterfaceBson.TypeBsonArray (env.populateTypeBsonArray s).1,
      (env.populateTypeBsonArray s).2)
  else if n = "bool" then
    some (InterfaceBson.TypeBsonBool (env.populateTypeBsonBool s).1,
      (env.populateTypeBsonBool s).2)
  else if n = "int" then
    some (InterfaceBson.TypeBsonInt (env.populateTypeBsonInt s).1,
      (env.populateTypeBsonInt s).2)
  else if n = "long" then
    some (InterfaceBson.TypeBsonLong (env.populateTypeBsonLong s).1,
      (env.populateTypeBsonLong s).2)
  else if n = "double" then
    some (InterfaceBson.TypeBsonDouble (env.populateTypeBsonDouble s).1,
      (env.populateTypeBsonDouble s).2)
  else if n = "decimal" then
    some (InterfaceBson.TypeBsonDecimal (env.populateTypeBsonDecimal s).1,
      (env.populateTypeBsonDecimal s).2)
  else none

/-- The entry `properties[p][t]` of a map of maps, with the comma-ok result. -/
def entryAt {β : Type} (properties : List (String × List (String × β))) (p t : String) :
    Option β :=
  match mapGet properties p with
  | none => none
  | some inner => mapGet inner t

/-- The type names under which `properties[p]` holds an entry. -/
def typeNamesAt {β : Type} (properties : List (String × List (String × β))) (p : String) :
    List String :=
  ((mapGet properties p).getD []).map Prod.fst

/-- The entries of a map all hold an element, those under `timestamp` apart. -/
def AllBuilt {κ δ : Type} (properties : Properties κ δ) : Prop :=
  ∀ p t b, entryAt properties p t = some b → t ≠ "timestamp" → b.ElementType ≠ none

/-- The entries of a map are all under one of the nine type names and hold an
element, those under `timestamp` apart. -/
def EntriesKnown {κ δ : Type} (properties : Properties κ δ) : Prop :=
  ∀ p t b, entryAt properties p t = some b → t ≠ "timestamp" →
    t ∈ recognizedNames ∧ b.ElementType ≠ none

/-- The strings of a list of values, when every value is a string. -/
def stringsOf (vs : List Value) : Option (List String) :=
  match vs with
  | [] => some []
  | Value.str s :: rest =>
    match stringsOf rest with
    | none => none
    | some names => some (s :: names)
  | _ :: _ => none

/-- The declared type names of a schema node as written: none when `bsonType`
is missing, the one name when it is a string, the names in order when it is an
array of strings.  No result when the declared type is malformed. -/
def declaredTypeNames (schema : Schema) : Option (List String) :=
  match mapGet schema "bsonType" with
  | none => some []
  | some (Value.str s) => some [s]
  | some (Value.arr vs) => stringsOf vs
  | some _ => none

/-! ## The nesting depth and the build with the recursive call made explicit -/

mutual

/-- The nesting depth of a value: a list or a mapping is one level deeper than
the deepest value it holds. -/
def Value.depth : Value → Nat
  | Value.arr xs => depthList xs + 1
  | Value.obj kvs => depthFields kvs + 1
  | _ => 0

/-- The depth of the deepest value of a list. -/
def depthList : List Value → Nat
  | [] => 0
  | v :: rest => max v.depth (depthList rest)

/-- The depth of the deepest value of a schema node. -/
def depthFields : List (String × Value) → Nat
  | [] => 0
  | (_, v) :: rest => max v.depth (depthFields rest)

end

/-- The `switch` of the dispatcher, the `Populate` of a fresh object in the
case `"object"` being the parameter `again`. -/
def switchTypeStringWith {κ δ : Type}
    (again : Schema → Option (TypeBsonObject κ δ × Option GoError)) (env : Collaborators κ δ)
    (typeString : String) (schema : Schema) : Option (SwitchExit (InterfaceBson κ δ)) :=
  if typeString = "generic" then
    some (switchCase InterfaceBson.TypeBsonGeneric (env.populateTypeBsonGeneric schema))
  else if typeString = "object" then
    match again schema with
    | none => none
    | some (_, some e) => some (SwitchExit.returned e)
    | some (o, none) => some (SwitchExit.fellOut (some (InterfaceBson.TypeBsonObject o)) none)
  else if typeString = "double" then
    some (switchCase InterfaceBson.TypeBsonDouble (env.populateTypeBsonDouble schema))
  else if typeString = "string" then
    some (switchCase InterfaceBson.TypeBsonString (env.populateTypeBsonString schema))
  else if typeString = "array" then
    some (switchCase InterfaceBson.TypeBsonArray (env.populateTypeBsonArray schema))
  else if typeString = "bool" then
    some (switchCase InterfaceBson.TypeBsonBool (env.populateTypeBsonBool schema))
  else if typeString = "int" then
    some (switchCase InterfaceBson.TypeBsonInt (env.populateTypeBsonInt schema))
  else if typeString = "timestamp" then
    some (SwitchExit.fellOut none none)
  else if typeString = "long" then
    some (switchCase InterfaceBson.TypeBsonLong (env.populateTypeBsonLong schema))
  else if typeString = "decimal" then
    some (switchCase InterfaceBson.TypeBsonDecimal (env.populateTypeBsonDecimal schema))
  else
    some (SwitchExit.fellOut none (some "type not implemented yet"))

/-- The dispatcher over `switchTypeStringWith`. -/
def typeStringToTypeObjectPopulatedWith {κ δ : Type}
    (again : Schema → Option (TypeBsonObject κ δ × Option GoError)) (env : Collaborators κ δ)
    (propertiesPointer : Option (Properties κ δ)) (key typeString : String) (schema : Schema) :
    Option (Properties κ δ × Option GoError) :=
  match switchTypeStringWith again env typeString schema with
  | none => none
  | some (SwitchExit.returned e) => some (propertiesPointer.getD [], some e)
  | some (SwitchExit.fellOut objType err) =>
    some (storeElement (propertiesPointer.getD []) key typeString objType, err)

/-- The inner loop of `populateBsonType` over `typeStringToTypeObjectPopulatedWith`. -/
def populateTypesWith {κ δ : Type}
    (again : Schema → Option (TypeBsonObject κ δ × Option GoError)) (env : Collaborators κ δ)
    (schemaCellKey : String) (schemaCell : Schema) (typesInCell : List String)
    (properties : Properties κ δ) (err : Option GoError) :
    Option (LoopExit (Properties κ δ)) :=
  match typesInCell with
  | [] => some (LoopExit.finished properties err)
  | currentType :: rest =>
    match typeStringToTypeObjectPopulatedWith again env (some properties) schemaCellKey
        currentType schemaCell with
    | none => none
    | some (properties', some e) => some (LoopExit.returned properties' (some e))
    | some (properties', none) =>
      populateTypesWith again env schemaCellKey schemaCell rest properties' none

/-- The outer loop of `populateBsonType` over `populateTypesWith`. -/
def populateCellsWith {κ δ : Type}
    (again : Schema → Option (TypeBsonObject κ δ × Option GoError)) (env : Collaborators κ δ)
    (cells : List (String × Value)) (properties : Properties κ δ) (err : Option GoError) :
    Option (LoopExit (Properties κ δ)) :=
  match cells with
  | [] => some (LoopExit.finished properties err)
  | (schemaCellKey, Value.obj schemaCell) :: rest =>
    match populateTypesWith again env schemaCellKey schemaCell
        (getPropertyBsonTypeAsSlice schemaCell).1 properties
        (getPropertyBsonTypeAsSlice schemaCell).2 with
    | none => none
    | some (LoopExit.returned properties' err') => some (LoopExit.returned properties' err')
    | some (LoopExit.finished properties' err') =>
      populateCellsWith again env rest properties' err'
  | _ :: _ => none

/-- The method `Populate` over `populateCellsWith`: one run of the body of
`Populate`, every `Populate` of a nested object being the parameter `again`. -/
def populateWith {κ δ : Type}
    (again : Schema → Option (TypeBsonObject κ δ × Option GoError)) (env : Collaborators κ δ)
    (el : TypeBsonObject κ δ) (schema : Schema) :
    Option (TypeBsonObject κ δ × Option GoError) :=
  match populateHead env el schema with
  | none => none
  | some (el', some e) => some (el', some e)
  | some (el', none) =>
    match populateCellsWith again env (rawProperties schema) [] none with
    | none => none
    | some exit => some ({ el' with Properties := some exit.results.1 }, exit.results.2)

/-- The method `Populate` with at most `n` nested entries into `Populate`: an
entry beyond the `n`-th is answered by `base`. -/
def populateWithin {κ δ : Type} (env : Collaborators κ δ)
    (base : TypeBsonObject κ δ → Schema → Option (TypeBsonObject κ δ × Option GoError)) :
    Nat → TypeBsonObject κ δ → Schema → Option (TypeBsonObject κ δ × Option GoError)
  | 0 => base
  | n + 1 => populateWith (populateWithin env base n (zeroObject env)) env

/-! ## A sample of the collaborators -/

/-- Modelled from the spec: the struct `TypeBsonCommonToAllTypes` is not in the
source; these are the Common Fields of the data model, "declared type name(s)
(as originally written), title, description, set of enumerated allowed literal
values". -/
structure CommonFields where
  BsonType : List String
  Title : Option Value
  Description : Option Value
  Enum : Option Value

/-- Modelled from the spec: the method `populateGeneric` is not in the source;
this is the Common-Fields Parser, "given a raw schema node, extract
title/description/enum and the declared type name(s)", where a "declared type
value that is neither a string nor an array of strings is a malformed-schema
error". -/
def parseCommonFields (schema : Schema) : CommonFields × Option GoError :=
  ({ BsonType := (getPropertyBsonTypeAsSlice schema).1
     Title := mapGet schema "title"
     Description := mapGet schema "description"
     Enum := mapGet schema "enum" }, (getPropertyBsonTypeAsSlice schema).2)

/-- Modelled from the spec: the method `getPropertyAsInt64` is not in the
source; `minProperties`/`maxProperties` are "(integers)", a value of another
kind is an error. -/
def readInt64 (schema : Schema) (key : String) : Int × Option GoError :=
  match mapGet schema key with
  | some (Value.num n) => (n, none)
  | _ => (0, some "the value must be an integer")

/-- Modelled from the spec: `Populate` of the variants other than the object is
not in the source; in this sample each of them parses the common fields only
(their own constraint keys are not modelled). -/
def sampleCollaborators : Collaborators CommonFields CommonFields where
  zeroCommon := { BsonType := [], Title := none, Description := none, Enum := none }
  populateGeneric := fun _ schema => parseCommonFields schema
  getPropertyAsInt64 := readInt64
  populateTypeBsonGeneric := parseCommonFields
  populateTypeBsonDouble := parseCommonFields
  populateTypeBsonString := parseCommonFields
  populateTypeBsonArray := parseCommonFields
  populateTypeBsonBool := parseCommonFields
  populateTypeBsonInt := parseCommonFields
  populateTypeBsonLong := parseCommonFields
  populateTypeBsonDecimal := parseCommonFields


/-- A sample object schema: `id` declares the union of `string` and `int`,
`name` declares `string`. -/
def sampleSchema : Schema :=
  [("bsonType", Value.str "object"),
   ("properties", Value.obj
     [("id", Value.obj [("bsonType", Value.arr [Value.str "string", Value.str "int"])]),
      ("name", Value.obj [("bsonType", Value.str "string")])])]

/-- The map that `populateBsonType` builds from `sampleSchema` with the sample
collaborators. -/
def sampleProperties : Properties CommonFields CommonFields :=
  [("id", [("string", ⟨some (InterfaceBson.TypeBsonString
              { BsonType := ["string", "int"], Title := none, Description := none,
                Enum := none })⟩),
           ("int", ⟨some (InterfaceBson.TypeBsonInt
              { BsonType := ["string", "int"], Title := none, Description := none,
                Enum := none })⟩)]),
   ("name", [("string", ⟨some (InterfaceBson.TypeBsonString
              { BsonType := ["string"], Title := none, Description := none,
                Enum := none })⟩)])]

/-- Two checks with fixed results, for the examples: the max check returns
`maxResult` and the min check `minResult`, on every object. -/
def fixedVerifiers {κ δ : Type} (maxResult minResult : Option GoError) : Verifiers κ δ where
  verifyMaxProperties := fun _ => maxResult
  verifyMinProperties := fun _ => minResult

/-! ## Unfolding lemmas -/

section Unfolding

variable {κ δ : Type}

theorem Populate_eq (env : Collaborators κ δ) (el : TypeBsonObject κ δ) (schema : Schema) :
    Populate env el schema =
      match populateHead env el schema with
      | none => none
      | some (el', some e) => some (el', some e)
      | some (el', none) =>
        match populateBsonType env schema with
        | none => none
        | some (properties, err) => some ({ el' with Properties := some properties }, err) := by
  rw [Populate, populateHead]
  split
  · rfl
  · split
    · rfl
    · split
      · rfl
      · rfl

theorem populateBsonType_of_properties (env : Collaborators κ δ) (schema : Schema)
    (newSchema : List (String × Value))
    (h : mapGet schema "properties" = some (Value.obj newSchema)) :
    populateBsonType env schema
      = (populateCells env newSchema [] none).map LoopExit.results := by
  rw [populateBsonType]
  split
  · rename_i cells hc
    rw [h] at hc
    injection hc with hc
    injection hc with hc
    subst hc
    cases populateCells env newSchema [] none <;> rfl
  · rename_i hc
    exact absurd h (hc newSchema)

theorem populateBsonType_of_not_properties (env : Collaborators κ δ) (schema : Schema)
    (h : ∀ newSchema, mapGet schema "properties" ≠ some (Value.obj newSchema)) :
    populateBsonType env schema = some ([], none) := by
  rw [populateBsonType]
  split
  · rename_i cells hc
    exact absurd hc (h cells)
  · rfl

theorem populateCells_nil (env : Collaborators κ δ) (properties : Properties κ δ)
    (err : Option GoError) :
    populateCells env [] properties err = some (LoopExit.finished properties err) := by
  rw [populateCells]

theorem populateCells_cons_obj (env : Collaborators κ δ) (key : String) (cell : Schema)
    (rest : List (String × Value)) (properties : Properties κ δ) (err : Option GoError) :
    populateCells env ((key, Value.obj cell) :: rest) properties err =
      match populateTypes env key cell (getPropertyBsonTypeAsSlice cell).1 properties
          (getPropertyBsonTypeAsSlice cell).2 with
      | none => none
      | some (LoopExit.returned properties' err') => some (LoopExit.returned properties' err')
      | some (LoopExit.finished properties' err') => populateCells env rest properties' err' := by
  rw [populateCells]

theorem populateCells_cons_other (env : Collaborators κ δ) (key : String) (v : Value)
    (rest : List (String × Value)) (properties : Properties κ δ) (err : Option GoError)
    (h : ∀ cell, v ≠ Value.obj cell) :
    populateCells env ((key, v) :: rest) properties err = none := by
  cases v with
  | obj cell => exact absurd rfl (h cell)
  | _ =>
    rw [populateCells]
    intro _ _ hab
    cases hab

theorem populateTypes_nil (env : Collaborators κ δ) (key : String) (cell : Schema)
    (properties : Properties κ δ) (err : Option GoError) :
    populateTypes env key cell [] properties err = some (LoopExit.finished properties err) := by
  rw [populateTypes]

theorem populateTypes_cons (env : Collaborators κ δ) (key : String) (cell : Schema)
    (t : String) (rest : List String) (properties : Properties κ δ) (err : Option GoError) :
    populateTypes env key cell (t :: rest) properties err =
      match typeStringToTypeObjectPopulated env (some properties) key t cell with
      | none => none
      | some (properties', some e) => some (LoopExit.returned properties' (some e))
      | some (properties', none) => populateTypes env key cell rest properties' none := by
  rw [populateTypes]

theorem typeStringToTypeObjectPopulated_eq (env : Collaborators κ δ)
    (propertiesPointer : Option (Properties κ δ)) (key typeString : String) (schema : Schema) :
    typeStringToTypeObjectPopulated env propertiesPointer key typeString schema =
      match switchTypeString env typeString schema with
      | none => none
      | some (SwitchExit.returned e) => some (propertiesPointer.getD [], some e)
      | some (SwitchExit.fellOut objType err) =>
        some (storeElement (propertiesPointer.getD []) key typeString objType, err) := by
  rw [typeStringToTypeObjectPopulated]

theorem populateTypes_cons_ok (env : Collaborators κ δ) (key : String) (cell : Schema)
    (t : String) (rest : List String) (properties properties' : Properties κ δ)
    (err : Option GoError)
    (h : typeStringToTypeObjectPopulated env (some properties) key t cell
      = some (properties', none)) :
    populateTypes env key cell (t :: rest) properties err
      = populateTypes env key cell rest properties' none := by
  rw [populateTypes_cons, h]

theorem populateTypes_cons_err (env : Collaborators κ δ) (key : String) (cell : Schema)
    (t : String) (rest : List String) (properties properties' : Properties κ δ)
    (err : Option GoError) (e : GoError)
    (h : typeStringToTypeObjectPopulated env (some properties) key t cell
      = some (properties', some e)) :
    populateTypes env key cell (t :: rest) properties err
      = some (LoopExit.returned properties' (some e)) := by
  rw [populateTypes_cons, h]

theorem populateTypes_cons_panic (env : Collaborators κ δ) (key : String) (cell : Schema)
    (t : String) (rest : List String) (properties : Properties κ δ) (err : Option GoError)
    (h : typeStringToTypeObjectPopulated env (some properties) key t cell = none) :
    populateTypes env key cell (t :: rest) properties err = none := by
  rw [populateTypes_cons, h]

theorem populateCells_cons_finished (env : Collaborators κ δ) (key : String) (cell : Schema)
    (rest : List (String × Value)) (properties properties' : Properties κ δ)
    (err err' : Option GoError)
    (h : populateTypes env key cell (getPropertyBsonTypeAsSlice cell).1 properties
      (getPropertyBsonTypeAsSlice cell).2 = some (LoopExit.finished properties' err')) :
    populateCells env ((key, Value.obj cell) :: rest) properties err
      = populateCells env rest properties' err' := by
  rw [populateCells_cons_obj, h]

theorem populateCells_cons_returned (env : Collaborators κ δ) (key : String) (cell : Schema)
    (rest : List (String × Value)) (properties properties' : Properties κ δ)
    (err err' : Option GoError)
    (h : populateTypes env key cell (getPropertyBsonTypeAsSlice cell).1 properties
      (getPropertyBsonTypeAsSlice cell).2 = some (LoopExit.returned properties' err')) :
    populateCells env ((key, Value.obj cell) :: rest) properties err
      = some (LoopExit.returned properties' err') := by
  rw [populateCells_cons_obj, h]

theorem populateCells_cons_panic (env : Collaborators κ δ) (key : String) (cell : Schema)
    (rest : List (String × Value)) (properties : Properties κ δ) (err : Option GoError)
    (h : populateTypes env key cell (getPropertyBsonTypeAsSlice cell).1 properties
      (getPropertyBsonTypeAsSlice cell).2 = none) :
    populateCells env ((key, Value.obj cell) :: rest) properties err = none := by
  rw [populateCells_cons_obj, h]

end Unfolding


/-! ## The dispatcher -/

section Dispatcher

variable {κ δ : Type}

theorem switchCase_ok (mk : δ → InterfaceBson κ δ) (r : δ × Option GoError) (h : r.2 = none) :
    switchCase mk r = SwitchExit.fellOut (some (mk r.1)) none := by
  unfold switchCase
  rw [h]

theorem switchCase_err (mk : δ → InterfaceBson κ δ) (r : δ × Option GoError) (e : GoError)
    (h : r.2 = some e) : switchCase mk r = SwitchExit.returned e := by
  unfold switchCase
  rw [h]

theorem switchTypeString_timestamp (env : Collaborators κ δ) (schema : Schema) :
    switchTypeString env "timestamp" schema = some (SwitchExit.fellOut none none) := by
  rw [switchTypeString]
  simp

theorem switchTypeString_other (env : Collaborators κ δ) (n : String) (schema : Schema)
    (hn : n ∉ recognizedNames) (ht : n ≠ "timestamp") :
    switchTypeString env n schema
      = some (SwitchExit.fellOut none (some "type not implemented yet")) := by
  simp only [recognizedNames, List.mem_cons, List.mem_singleton, not_or, List.not_mem_nil,
    or_false] at hn
  obtain ⟨h1, h2, h3, h4, h5, h6, h7, h8, h9⟩ := hn
  rw [switchTypeString]
  simp only [h1, h2, h3, h4, h5, h6, h7, h8, h9, ht, if_false]

theorem switchTypeString_of_populateVariant_ok (env : Collaborators κ δ) (n : String)
    (schema : Schema) (elem : InterfaceBson κ δ)
    (h : populateVariant env n schema = some (elem, none)) :
    switchTypeString env n schema = some (SwitchExit.fellOut (some elem) none) := by
  unfold populateVariant at h
  split_ifs at h with h1 h2 h3 h4 h5 h6 h7 h8 h9
  all_goals first
    | (subst n
       rw [switchTypeString]
       simp only [Option.some.injEq, Prod.mk.injEq] at h
       obtain ⟨hel, herr⟩ := h
       subst hel
       simp [switchCase_ok _ _ herr])
    | skip
  · subst n
    rw [switchTypeString]
    simp only [String.reduceEq, if_false, if_true]
    cases hp : Populate env (zeroObject env) schema with
    | none => rw [hp] at h; simp at h
    | some r =>
      obtain ⟨o, err⟩ := r
      rw [hp] at h
      simp only [Option.some.injEq, Prod.mk.injEq] at h
      obtain ⟨hel, herr⟩ := h
      subst hel
      subst herr
      rfl

theorem switchTypeString_of_populateVariant_err (env : Collaborators κ δ) (n : String)
    (schema : Schema) (elem : InterfaceBson κ δ) (e : GoError)
    (h : populateVariant env n schema = some (elem, some e)) :
    switchTypeString env n schema = some (SwitchExit.returned e) := by
  unfold populateVariant at h
  split_ifs at h with h1 h2 h3 h4 h5 h6 h7 h8 h9
  all_goals first
    | (subst n
       rw [switchTypeString]
       simp only [Option.some.injEq, Prod.mk.injEq] at h
       obtain ⟨hel, herr⟩ := h
       simp [switchCase_err _ _ e herr])
    | skip
  · subst n
    rw [switchTypeString]
    simp only [String.reduceEq, if_false, if_true]
    cases hp : Populate env (zeroObject env) schema with
    | none => rw [hp] at h; simp at h
    | some r =>
      obtain ⟨o, err⟩ := r
      rw [hp] at h
      simp only [Option.some.injEq, Prod.mk.injEq] at h
      obtain ⟨hel, herr⟩ := h
      subst herr
      rfl

theorem dispatcher_of_populateVariant_ok (env : Collaborators κ δ)
    (propertiesPointer : Option (Properties κ δ)) (key n : String) (schema : Schema)
    (elem : InterfaceBson κ δ) (h : populateVariant env n schema = some (elem, none)) :
    typeStringToTypeObjectPopulated env propertiesPointer key n schema
      = some (storeElement (propertiesPointer.getD []) key n (some elem), none) := by
  rw [typeStringToTypeObjectPopulated_eq, switchTypeString_of_populateVariant_ok env n schema elem h]

theorem dispatcher_of_populateVariant_err (env : Collaborators κ δ)
    (propertiesPointer : Option (Properties κ δ)) (key n : String) (schema : Schema)
    (elem : InterfaceBson κ δ) (e : GoError)
    (h : populateVariant env n schema = some (elem, some e)) :
    typeStringToTypeObjectPopulated env propertiesPointer key n schema
      = some (propertiesPointer.getD [], some e) := by
  rw [typeStringToTypeObjectPopulated_eq,
    switchTypeString_of_populateVariant_err env n schema elem e h]

theorem dispatcher_timestamp (env : Collaborators κ δ)
    (propertiesPointer : Option (Properties κ δ)) (key : String) (schema : Schema) :
    typeStringToTypeObjectPopulated env propertiesPointer key "timestamp" schema
      = some (storeElement (propertiesPointer.getD []) key "timestamp" none, none) := by
  rw [typeStringToTypeObjectPopulated_eq, switchTypeString_timestamp]

theorem dispatcher_other (env : Collaborators κ δ)
    (propertiesPointer : Option (Properties κ δ)) (key n : String) (schema : Schema)
    (hn : n ∉ recognizedNames) (ht : n ≠ "timestamp") :
    typeStringToTypeObjectPopulated env propertiesPointer key n schema
      = some (storeElement (propertiesPointer.getD []) key n none,
          some "type not implemented yet") := by
  rw [typeStringToTypeObjectPopulated_eq, switchTypeString_other env n schema hn ht]

end Dispatcher

/-! ## Maps -/

section Maps

variable {β : Type}

theorem mapGet_mapSet_self (m : List (String × β)) (k : String) (v : β) :
    mapGet (mapSet m k v) k = some v := by
  induction m with
  | nil => simp [mapSet, mapGet]
  | cons kv rest ih =>
    obtain ⟨k', v'⟩ := kv
    unfold mapSet
    split_ifs with hk
    · simp [mapGet]
    · simp [mapGet, hk, ih]

theorem mapGet_mapSet_ne (m : List (String × β)) (k k' : String) (v : β) (h : k' ≠ k) :
    mapGet (mapSet m k v) k' = mapGet m k' := by
  induction m with
  | nil => simp [mapSet, mapGet, Ne.symm h]
  | cons kv rest ih =>
    obtain ⟨k'', v''⟩ := kv
    unfold mapSet
    split_ifs with hk
    · subst hk
      simp [mapGet, Ne.symm h]
    · simp [mapGet, ih]

theorem entryAt_storeElement_self {κ δ : Type} (properties : Properties κ δ)
    (key t : String) (o : Option (InterfaceBson κ δ)) :
    entryAt (storeElement properties key t o) key t = some ⟨o⟩ := by
  unfold entryAt storeElement
  rw [mapGet_mapSet_self]
  exact mapGet_mapSet_self _ _ _

theorem entryAt_storeElement_ne {κ δ : Type} (properties : Properties κ δ)
    (key t p t' : String) (o : Option (InterfaceBson κ δ)) (h : ¬ (p = key ∧ t' = t)) :
    entryAt (storeElement properties key t o) p t' = entryAt properties p t' := by
  unfold entryAt storeElement
  by_cases hp : p = key
  · subst hp
    have ht : t' ≠ t := fun ht => h ⟨rfl, ht⟩
    rw [mapGet_mapSet_self]
    simp only
    rw [mapGet_mapSet_ne _ _ _ _ ht]
    cases mapGet properties p <;> simp [mapGet]
  · rw [mapGet_mapSet_ne _ _ _ _ hp]

end Maps



/-! ## `Populate` and the loops -/

section Loops

variable {κ δ : Type}

theorem Populate_of_head_err (env : Collaborators κ δ) (el el' : TypeBsonObject κ δ)
    (schema : Schema) (e : GoError) (h : populateHead env el schema = some (el', some e)) :
    Populate env el schema = some (el', some e) := by
  rw [Populate_eq, h]

theorem Populate_of_head_panic (env : Collaborators κ δ) (el : TypeBsonObject κ δ)
    (schema : Schema) (h : populateHead env el schema = none) :
    Populate env el schema = none := by
  rw [Populate_eq, h]

theorem Populate_of_head_ok (env : Collaborators κ δ) (el el' : TypeBsonObject κ δ)
    (schema : Schema) (properties : Properties κ δ) (err : Option GoError)
    (h : populateHead env el schema = some (el', none))
    (hp : populateBsonType env schema = some (properties, err)) :
    Populate env el schema = some ({ el' with Properties := some properties }, err) := by
  rw [Populate_eq, h, hp]

theorem populateRequired_Properties (el el' : TypeBsonObject κ δ) (schema : Schema)
    (err : Option GoError) (h : populateRequired el schema = some (el', err)) :
    el'.Properties = el.Properties := by
  unfold populateRequired at h
  split at h
  · simp at h
  · simp only [Option.some.injEq, Prod.mk.injEq] at h
    rw [← h.1]

theorem populateHead_Properties (env : Collaborators κ δ) (el el' : TypeBsonObject κ δ)
    (schema : Schema) (err : Option GoError) (h : populateHead env el schema = some (el', err)) :
    el'.Properties = el.Properties := by
  unfold populateHead at h
  split at h
  · simp only [Option.some.injEq, Prod.mk.injEq] at h
    rw [← h.1]
  · split at h
    · simp only [Option.some.injEq, Prod.mk.injEq] at h
      rw [← h.1]
    · split at h
      · simp only [Option.some.injEq, Prod.mk.injEq] at h
        rw [← h.1]
      · exact (populateRequired_Properties _ el' schema err h).trans rfl

theorem populateTypes_append_finished (env : Collaborators κ δ) (key : String) (cell : Schema)
    (xs ys : List String) (properties properties' : Properties κ δ) (err err' : Option GoError)
    (h : populateTypes env key cell xs properties err
      = some (LoopExit.finished properties' err')) :
    populateTypes env key cell (xs ++ ys) properties err
      = populateTypes env key cell ys properties' err' := by
  induction xs generalizing properties err with
  | nil =>
    rw [populateTypes_nil] at h
    simp only [Option.some.injEq, LoopExit.finished.injEq] at h
    rw [h.1, h.2]
    rfl
  | cons t rest ih =>
    rw [populateTypes_cons] at h
    cases hd : typeStringToTypeObjectPopulated env (some properties) key t cell with
    | none => rw [hd] at h; simp at h
    | some r =>
      obtain ⟨p, e⟩ := r
      cases e with
      | some e => rw [hd] at h; simp at h
      | none =>
        rw [hd] at h
        rw [List.cons_append, populateTypes_cons_ok env key cell t _ properties p err hd]
        exact ih _ _ h

theorem populateCells_append_finished (env : Collaborators κ δ)
    (xs ys : List (String × Value)) (properties properties' : Properties κ δ)
    (err err' : Option GoError)
    (h : populateCells env xs properties err = some (LoopExit.finished properties' err')) :
    populateCells env (xs ++ ys) properties err = populateCells env ys properties' err' := by
  induction xs generalizing properties err with
  | nil =>
    rw [populateCells_nil] at h
    simp only [Option.some.injEq, LoopExit.finished.injEq] at h
    rw [h.1, h.2]
    rfl
  | cons kv rest ih =>
    obtain ⟨key, v⟩ := kv
    cases v with
    | obj cell =>
      rw [populateCells_cons_obj] at h
      cases ht : populateTypes env key cell (getPropertyBsonTypeAsSlice cell).1 properties
          (getPropertyBsonTypeAsSlice cell).2 with
      | none => rw [ht] at h; simp at h
      | some r =>
        cases r with
        | returned p e => rw [ht] at h; simp at h
        | finished p e =>
          rw [ht] at h
          rw [List.cons_append, populateCells_cons_finished env key cell _ properties p err e ht]
          exact ih _ _ h
    | _ =>
      rw [populateCells_cons_other _ _ _ _ _ _ (by intro c hc; cases hc)] at h
      simp at h

/-- The first failing `Populate` of a child: the properties before it have
been built, the type names before it too, and the object comes back with the
map built so far and the child's error. -/
theorem Populate_of_child_failure (env : Collaborators κ δ) (el el' : TypeBsonObject κ δ)
    (schema : Schema) (pre post : List (String × Value)) (key : String) (cell : Schema)
    (tpre tpost : List String) (t : String) (properties₀ properties₁ : Properties κ δ)
    (err₀ err₁ : Option GoError) (elem : InterfaceBson κ δ) (e : GoError)
    (hhead : populateHead env el schema = some (el', none))
    (hraw : mapGet schema "properties" = some (Value.obj (pre ++ (key, Value.obj cell) :: post)))
    (hpre : populateCells env pre [] none = some (LoopExit.finished properties₀ err₀))
    (htypes : (getPropertyBsonTypeAsSlice cell).1 = tpre ++ t :: tpost)
    (htpre : populateTypes env key cell tpre properties₀ (getPropertyBsonTypeAsSlice cell).2
      = some (LoopExit.finished properties₁ err₁))
    (hchild : populateVariant env t cell = some (elem, some e)) :
    Populate env el schema = some ({ el' with Properties := some properties₁ }, some e) := by
  have hd := dispatcher_of_populateVariant_err env (some properties₁) key t cell elem e hchild
  have ht : populateTypes env key cell (getPropertyBsonTypeAsSlice cell).1 properties₀
      (getPropertyBsonTypeAsSlice cell).2 = some (LoopExit.returned properties₁ (some e)) := by
    rw [htypes, populateTypes_append_finished env key cell tpre _ _ _ _ _ htpre]
    exact populateTypes_cons_err env key cell t tpost properties₁ _ err₁ e hd
  have hc : populateCells env (pre ++ (key, Value.obj cell) :: post) [] none
      = some (LoopExit.returned properties₁ (some e)) := by
    rw [populateCells_append_finished env pre _ _ _ _ _ hpre]
    exact populateCells_cons_returned env key cell post properties₀ _ err₀ _ ht
  have hp : populateBsonType env schema = some (properties₁, some e) := by
    rw [populateBsonType_of_properties env _ _ hraw, hc]
    rfl
  exact Populate_of_head_ok env el el' schema _ _ hhead hp

theorem populateVariant_object (env : Collaborators κ δ) (s : Schema) :
    populateVariant env "object" s =
      match Populate env (zeroObject env) s with
      | none => none
      | some (o, err) => some (InterfaceBson.TypeBsonObject o, err) := by
  unfold populateVariant
  simp

end Loops

/-! ## Keys of a map -/

section Keys

variable {β : Type}

theorem mem_keys_mapSet (m : List (String × β)) (k x : String) (v : β) :
    x ∈ (mapSet m k v).map Prod.fst ↔ x = k ∨ x ∈ m.map Prod.fst := by
  induction m with
  | nil => simp [mapSet]
  | cons kv rest ih =>
    obtain ⟨k', v'⟩ := kv
    unfold mapSet
    split_ifs with hk
    · subst hk
      simp
    · simp only [List.map_cons, List.mem_cons, ih]
      tauto

theorem nodup_keys_mapSet (m : List (String × β)) (k : String) (v : β)
    (h : (m.map Prod.fst).Nodup) : ((mapSet m k v).map Prod.fst).Nodup := by
  induction m with
  | nil => simp [mapSet]
  | cons kv rest ih =>
    obtain ⟨k', v'⟩ := kv
    unfold mapSet
    split_ifs with hk
    · subst hk
      simpa using h
    · simp only [List.map_cons, List.nodup_cons] at h ⊢
      refine ⟨?_, ih h.2⟩
      rw [mem_keys_mapSet]
      rintro (hx | hx)
      · exact hk hx
      · exact h.1 hx

theorem mapGet_ne_none_iff (m : List (String × β)) (k : String) :
    mapGet m k ≠ none ↔ k ∈ m.map Prod.fst := by
  induction m with
  | nil => simp [mapGet]
  | cons kv rest ih =>
    obtain ⟨k', v'⟩ := kv
    unfold mapGet
    split_ifs with hk
    · subst hk
      simp
    · simp only [List.map_cons, List.mem_cons, ih]
      constructor
      · exact fun h => Or.inr h
      · rintro (h | h)
        · exact absurd h.symm hk
        · exact h

theorem mapGet_of_mem_of_nodup (m : List (String × β)) (k : String) (v : β)
    (hn : (m.map Prod.fst).Nodup) (h : (k, v) ∈ m) : mapGet m k = some v := by
  induction m with
  | nil => simp at h
  | cons kv rest ih =>
    obtain ⟨k', v'⟩ := kv
    simp only [List.map_cons, List.nodup_cons] at hn
    unfold mapGet
    rcases List.mem_cons.1 h with h | h
    · injection h with h1 h2
      subst h1
      subst h2
      simp
    · have hk : k' ≠ k := by
        rintro rfl
        exact hn.1 (List.mem_map.2 ⟨(k', v), h, rfl⟩)
      simp only [hk, if_false]
      exact ih hn.2 h

end Keys

/-! ## The required names -/

theorem requiredLoop_strings (names : List String) (required : List (String × Bool)) :
    requiredLoop "" (names.map Value.str) required
      = some (names.foldl (fun m name => mapSet m name true) required) := by
  induction names generalizing required with
  | nil => rfl
  | cons name rest ih =>
    simp only [List.map_cons, requiredLoop, ne_eq, not_true_eq_false, if_false, List.foldl_cons]
    exact ih _

theorem mapGet_foldl_mapSet_true (names : List String) (required : List (String × Bool))
    (k : String) :
    mapGet (names.foldl (fun m name => mapSet m name true) required) k
      = if k ∈ names then some true else mapGet required k := by
  induction names generalizing required with
  | nil => simp
  | cons name rest ih =>
    rw [List.foldl_cons, ih]
    by_cases hk : k ∈ rest
    · simp [hk]
    · by_cases hkn : k = name
      · subst hkn
        simp [hk, mapGet_mapSet_self]
      · simp [hk, hkn, mapGet_mapSet_ne _ _ _ _ hkn]

theorem nodup_keys_foldl_mapSet (names : List String) (required : List (String × Bool))
    (h : (required.map Prod.fst).Nodup) :
    ((names.foldl (fun m name => mapSet m name true) required).map Prod.fst).Nodup := by
  induction names generalizing required with
  | nil => simpa using h
  | cons name rest ih =>
    rw [List.foldl_cons]
    exact ih _ (nodup_keys_mapSet _ _ _ h)

/-! ## The declared type names -/

theorem bsonTypeLoop_strings (names value : List String) :
    bsonTypeLoop (names.map Value.str) value = (value ++ names, none) := by
  induction names generalizing value with
  | nil => simp [bsonTypeLoop]
  | cons s rest ih => simp [bsonTypeLoop, ih]

theorem bsonTypeLoop_no_error (vs : List Value) (value : List String)
    (h : (bsonTypeLoop vs value).2 = none) : ∃ names : List String, vs = names.map Value.str := by
  induction vs generalizing value with
  | nil => exact ⟨[], rfl⟩
  | cons v rest ih =>
    cases v with
    | str s =>
      simp only [bsonTypeLoop] at h
      obtain ⟨names, hn⟩ := ih _ h
      exact ⟨s :: names, by simp [hn]⟩
    | _ => simp [bsonTypeLoop] at h

/-! ## The entries of the map built by `populateBsonType` -/

section Entries

variable {κ δ : Type}

theorem stringsOf_eq_some (vs : List Value) (names : List String)
    (h : stringsOf vs = some names) : vs = names.map Value.str := by
  induction vs generalizing names with
  | nil =>
    simp only [stringsOf, Option.some.injEq] at h
    subst h
    rfl
  | cons v rest ih =>
    cases v with
    | str s =>
      simp only [stringsOf] at h
      cases hr : stringsOf rest with
      | none => rw [hr] at h; simp at h
      | some ns =>
        rw [hr] at h
        simp only [Option.some.injEq] at h
        subst h
        simp [ih ns hr]
    | _ => simp [stringsOf] at h

theorem getPropertyBsonTypeAsSlice_of_declared (schema : Schema) (names : List String)
    (h : declaredTypeNames schema = some names) :
    getPropertyBsonTypeAsSlice schema = (names, none) := by
  unfold declaredTypeNames at h
  unfold getPropertyBsonTypeAsSlice
  cases hb : mapGet schema "bsonType" with
  | none =>
    rw [hb] at h
    simp only [Option.some.injEq] at h
    subst h
    rfl
  | some v =>
    rw [hb] at h
    cases v with
    | str s =>
      simp only [Option.some.injEq] at h
      subst h
      rfl
    | arr vs =>
      simp only at h
      rw [stringsOf_eq_some vs names h]
      simpa using bsonTypeLoop_strings names []
    | _ => simp at h

theorem mem_typeNamesAt_iff (properties : Properties κ δ) (p t : String) :
    t ∈ typeNamesAt properties p ↔ entryAt properties p t ≠ none := by
  unfold typeNamesAt entryAt
  cases mapGet properties p with
  | none => simp
  | some inner => simpa using (mapGet_ne_none_iff inner t).symm

theorem entryAt_storeElement (properties : Properties κ δ) (key t p t' : String)
    (o : Option (InterfaceBson κ δ)) :
    entryAt (storeElement properties key t o) p t'
      = if p = key ∧ t' = t then some ⟨o⟩ else entryAt properties p t' := by
  split_ifs with h
  · obtain ⟨rfl, rfl⟩ := h
    exact entryAt_storeElement_self _ _ _ _
  · exact entryAt_storeElement_ne _ _ _ _ _ _ h

theorem nodup_typeNamesAt_storeElement (properties : Properties κ δ) (key t : String)
    (o : Option (InterfaceBson κ δ)) (h : ∀ p, (typeNamesAt properties p).Nodup) (p : String) :
    (typeNamesAt (storeElement properties key t o) p).Nodup := by
  unfold typeNamesAt storeElement
  by_cases hp : p = key
  · subst hp
    rw [mapGet_mapSet_self]
    exact nodup_keys_mapSet _ _ _ (h p)
  · rw [mapGet_mapSet_ne _ _ _ _ hp]
    exact h p

theorem switchTypeString_fellOut_built (env : Collaborators κ δ) (t : String) (schema : Schema)
    (o : Option (InterfaceBson κ δ))
    (h : switchTypeString env t schema = some (SwitchExit.fellOut o none))
    (ht : t ≠ "timestamp") : o ≠ none := by
  rw [switchTypeString] at h
  have hcase : ∀ (mk : δ → InterfaceBson κ δ) (r : δ × Option GoError),
      some (switchCase mk r) = some (SwitchExit.fellOut o none) → o ≠ none := by
    intro mk r hr
    unfold switchCase at hr
    split at hr
    · simp at hr
    · simp only [Option.some.injEq, SwitchExit.fellOut.injEq, and_true] at hr
      rw [← hr]
      simp
  split_ifs at h with h1 h2 h3 h4 h5 h6 h7 h8 h9
  · exact hcase _ _ h
  · split at h
    · simp at h
    · simp at h
    · simp only [Option.some.injEq, SwitchExit.fellOut.injEq, and_true] at h
      rw [← h]
      simp
  · exact hcase _ _ h
  · exact hcase _ _ h
  · exact hcase _ _ h
  · exact hcase _ _ h
  · exact hcase _ _ h
  · exact hcase _ _ h
  · exact hcase _ _ h
  · simp at h

theorem dispatcher_ok_shape (env : Collaborators κ δ) (properties properties' : Properties κ δ)
    (key t : String) (cell : Schema)
    (h : typeStringToTypeObjectPopulated env (some properties) key t cell
      = some (properties', none)) :
    ∃ o, properties' = storeElement properties key t o ∧ (t ≠ "timestamp" → o ≠ none) := by
  rw [typeStringToTypeObjectPopulated_eq] at h
  cases hs : switchTypeString env t cell with
  | none => rw [hs] at h; simp at h
  | some r =>
    cases r with
    | returned e => rw [hs] at h; simp at h
    | fellOut o err =>
      rw [hs] at h
      simp only [Option.getD_some, Option.some.injEq, Prod.mk.injEq] at h
      obtain ⟨hp, herr⟩ := h
      subst herr
      exact ⟨o, hp.symm, switchTypeString_fellOut_built env t cell o hs⟩

theorem AllBuilt_storeElement (properties : Properties κ δ) (key t : String)
    (o : Option (InterfaceBson κ δ)) (h : AllBuilt properties)
    (ho : t ≠ "timestamp" → o ≠ none) : AllBuilt (storeElement properties key t o) := by
  intro p t' b hb ht'
  rw [entryAt_storeElement] at hb
  split_ifs at hb with hpt
  · obtain ⟨rfl, rfl⟩ := hpt
    simp only [Option.some.injEq] at hb
    rw [← hb]
    exact ho ht'
  · exact h p t' b hb ht'

/-- What a run of the inner loop to its end has done to the map. -/
theorem populateTypes_finished (env : Collaborators κ δ) (key : String) (cell : Schema)
    (types : List String) (properties properties' : Properties κ δ) (err err' : Option GoError)
    (h : populateTypes env key cell types properties err
      = some (LoopExit.finished properties' err')) :
    (∀ p t, entryAt properties' p t ≠ none ↔
      entryAt properties p t ≠ none ∨ (p = key ∧ t ∈ types)) ∧
    ((∀ p, (typeNamesAt properties p).Nodup) → ∀ p, (typeNamesAt properties' p).Nodup) ∧
    (AllBuilt properties → AllBuilt properties') ∧
    (types ≠ [] → err' = none) ∧ (types = [] → err' = err) := by
  induction types generalizing properties err with
  | nil =>
    rw [populateTypes_nil] at h
    simp only [Option.some.injEq, LoopExit.finished.injEq] at h
    obtain ⟨rfl, rfl⟩ := h
    simp
  | cons t rest ih =>
    rw [populateTypes_cons] at h
    cases hd : typeStringToTypeObjectPopulated env (some properties) key t cell with
    | none => rw [hd] at h; simp at h
    | some r =>
      obtain ⟨p₁, e⟩ := r
      cases e with
      | some e => rw [hd] at h; simp at h
      | none =>
        rw [hd] at h
        simp only at h
        obtain ⟨o, rfl, ho⟩ := dispatcher_ok_shape env properties p₁ key t cell hd
        obtain ⟨i1, i2, i3, i4, i5⟩ := ih _ _ h
        refine ⟨?_, ?_, ?_, ?_, ?_⟩
        · intro p t'
          rw [i1, entryAt_storeElement]
          by_cases hpt : p = key ∧ t' = t
          · simp [hpt]
          · simp only [hpt, if_false, List.mem_cons]
            constructor
            · rintro (hx | ⟨hx, hy⟩)
              · exact Or.inl hx
              · exact Or.inr ⟨hx, Or.inr hy⟩
            · rintro (hx | ⟨hx, hy | hy⟩)
              · exact Or.inl hx
              · exact absurd ⟨hx, hy⟩ hpt
              · exact Or.inr ⟨hx, hy⟩
        · exact fun hn => i2 (nodup_typeNamesAt_storeElement _ _ _ _ hn)
        · exact fun hb => i3 (AllBuilt_storeElement _ _ _ _ hb ho)
        · intro _
          by_cases hrest : rest = []
          · exact i5 hrest
          · exact i4 hrest
        · intro hc
          simp at hc

theorem populateTypes_returned (env : Collaborators κ δ) (key : String) (cell : Schema)
    (types : List String) (properties properties' : Properties κ δ) (err err' : Option GoError)
    (h : populateTypes env key cell types properties err
      = some (LoopExit.returned properties' err')) : err' ≠ none := by
  induction types generalizing properties err with
  | nil =>
    rw [populateTypes_nil] at h
    simp at h
  | cons t rest ih =>
    rw [populateTypes_cons] at h
    cases hd : typeStringToTypeObjectPopulated env (some properties) key t cell with
    | none => rw [hd] at h; simp at h
    | some r =>
      obtain ⟨p₁, e⟩ := r
      cases e with
      | some e =>
        rw [hd] at h
        simp only [Option.some.injEq, LoopExit.returned.injEq] at h
        rw [← h.2]
        simp
      | none =>
        rw [hd] at h
        exact ih _ _ h

/-- What a run of the outer loop to its end has done to the map. -/
theorem populateCells_finished (env : Collaborators κ δ) (cells : List (String × Value))
    (properties properties' : Properties κ δ) (err err' : Option GoError)
    (h : populateCells env cells properties err = some (LoopExit.finished properties' err')) :
    (∀ p t, entryAt properties' p t ≠ none ↔
      entryAt properties p t ≠ none ∨
        ∃ cell, (p, Value.obj cell) ∈ cells ∧ t ∈ (getPropertyBsonTypeAsSlice cell).1) ∧
    ((∀ p, (typeNamesAt properties p).Nodup) → ∀ p, (typeNamesAt properties' p).Nodup) ∧
    (AllBuilt properties → AllBuilt properties') := by
  induction cells generalizing properties err with
  | nil =>
    rw [populateCells_nil] at h
    simp only [Option.some.injEq, LoopExit.finished.injEq] at h
    obtain ⟨rfl, rfl⟩ := h
    simp
  | cons kv rest ih =>
    obtain ⟨key, v⟩ := kv
    cases v with
    | obj cell =>
      rw [populateCells_cons_obj] at h
      cases ht : populateTypes env key cell (getPropertyBsonTypeAsSlice cell).1 properties
          (getPropertyBsonTypeAsSlice cell).2 with
      | none => rw [ht] at h; simp at h
      | some r =>
        cases r with
        | returned p e => rw [ht] at h; simp at h
        | finished p₁ e₁ =>
          rw [ht] at h
          simp only at h
          obtain ⟨j1, j2, j3, -, -⟩ := populateTypes_finished env key cell _ _ _ _ _ ht
          obtain ⟨i1, i2, i3⟩ := ih _ _ h
          refine ⟨?_, fun hn => i2 (j2 hn), fun hb => i3 (j3 hb)⟩
          intro p t
          rw [i1, j1]
          constructor
          · rintro ((hx | ⟨rfl, hx⟩) | ⟨c, hc, hx⟩)
            · exact Or.inl hx
            · exact Or.inr ⟨cell, List.mem_cons_self _ _, hx⟩
            · exact Or.inr ⟨c, List.mem_cons_of_mem _ hc, hx⟩
          · rintro (hx | ⟨c, hc, hx⟩)
            · exact Or.inl (Or.inl hx)
            · rcases List.mem_cons.1 hc with hc | hc
              · injection hc with h1 h2
                injection h2 with h2
                subst h1
                subst h2
                exact Or.inl (Or.inr ⟨rfl, hx⟩)
              · exact Or.inr ⟨c, hc, hx⟩
    | _ =>
      rw [populateCells_cons_other _ _ _ _ _ _ (by intro c hc; cases hc)] at h
      simp at h

theorem populateCells_returned (env : Collaborators κ δ) (cells : List (String × Value))
    (properties properties' : Properties κ δ) (err err' : Option GoError)
    (h : populateCells env cells properties err = some (LoopExit.returned properties' err')) :
    err' ≠ none := by
  induction cells generalizing properties err with
  | nil =>
    rw [populateCells_nil] at h
    simp at h
  | cons kv rest ih =>
    obtain ⟨key, v⟩ := kv
    cases v with
    | obj cell =>
      rw [populateCells_cons_obj] at h
      cases ht : populateTypes env key cell (getPropertyBsonTypeAsSlice cell).1 properties
          (getPropertyBsonTypeAsSlice cell).2 with
      | none => rw [ht] at h; simp at h
      | some r =>
        cases r with
        | returned p e =>
          rw [ht] at h
          simp only [Option.some.injEq, LoopExit.returned.injEq] at h
          rw [← h.2]
          exact populateTypes_returned env key cell _ _ _ _ _ ht
        | finished p₁ e₁ =>
          rw [ht] at h
          exact ih _ _ h
    | _ =>
      rw [populateCells_cons_other _ _ _ _ _ _ (by intro c hc; cases hc)] at h
      simp at h

theorem populateBsonType_eq_cells (env : Collaborators κ δ) (schema : Schema) :
    populateBsonType env schema
      = (populateCells env (rawProperties schema) [] none).map LoopExit.results := by
  by_cases h : ∃ newSchema, mapGet schema "properties" = some (Value.obj newSchema)
  · obtain ⟨newSchema, h⟩ := h
    rw [populateBsonType_of_properties env _ _ h]
    unfold rawProperties
    rw [h]
  · have h' : ∀ newSchema, mapGet schema "properties" ≠ some (Value.obj newSchema) :=
      fun newSchema hn => h ⟨newSchema, hn⟩
    rw [populateBsonType_of_not_properties env _ h']
    have hr : rawProperties schema = [] := by
      unfold rawProperties
      split
      · rename_i newSchema hn
        exact absurd hn (h' newSchema)
      · rfl
    rw [hr, populateCells_nil]
    rfl

theorem populateBsonType_ok_cells (env : Collaborators κ δ) (schema : Schema)
    (properties : Properties κ δ) (h : populateBsonType env schema = some (properties, none)) :
    populateCells env (rawProperties schema) [] none
      = some (LoopExit.finished properties none) := by
  rw [populateBsonType_eq_cells] at h
  cases hc : populateCells env (rawProperties schema) [] none with
  | none => rw [hc] at h; simp at h
  | some r =>
    rw [hc] at h
    cases r with
    | returned p e =>
      simp only [Option.map_some', LoopExit.results, Option.some.injEq, Prod.mk.injEq] at h
      exact absurd h.2 (populateCells_returned env _ _ _ _ _ hc)
    | finished p e =>
      simp only [Option.map_some', LoopExit.results, Option.some.injEq, Prod.mk.injEq] at h
      rw [h.1, h.2]

end Entries

/-! ## The fields that `Populate` sets -/

section Fields

variable {κ δ : Type}

theorem populateRequired_shape (el el' : TypeBsonObject κ δ) (schema : Schema)
    (err : Option GoError) (h : populateRequired el schema = some (el', err)) :
    ∃ required, el' = { el with Required := required } := by
  unfold populateRequired at h
  split at h
  · simp at h
  · rename_i required err' _
    simp only [Option.some.injEq, Prod.mk.injEq] at h
    exact ⟨required, h.1.symm⟩

theorem populateHead_frame (env : Collaborators κ δ) (el el' : TypeBsonObject κ δ)
    (schema : Schema) (err : Option GoError) (h : populateHead env el schema = some (el', err)) :
    el'.PatternProperties = el.PatternProperties ∧
    el'.AdditionalPropertiesBoolIsSet = el.AdditionalPropertiesBoolIsSet ∧
    el'.AdditionalPropertiesBoolValue = el.AdditionalPropertiesBoolValue ∧
    el'.AdditionalPropertiesMap = el.AdditionalPropertiesMap ∧
    el'.Dependencies = el.Dependencies := by
  unfold populateHead at h
  split at h
  · simp only [Option.some.injEq, Prod.mk.injEq] at h
    rw [← h.1]
    exact ⟨rfl, rfl, rfl, rfl, rfl⟩
  · split at h
    · simp only [Option.some.injEq, Prod.mk.injEq] at h
      rw [← h.1]
      exact ⟨rfl, rfl, rfl, rfl, rfl⟩
    · split at h
      · simp only [Option.some.injEq, Prod.mk.injEq] at h
        rw [← h.1]
        exact ⟨rfl, rfl, rfl, rfl, rfl⟩
      · obtain ⟨required, hr⟩ := populateRequired_shape _ _ _ _ h
        rw [hr]
        exact ⟨rfl, rfl, rfl, rfl, rfl⟩

theorem populateHead_ok_bounds (env : Collaborators κ δ) (el el' : TypeBsonObject κ δ)
    (schema : Schema) (h : populateHead env el schema = some (el', none)) :
    (el'.MinPropertiesHasSet, el'.MinProperties, (none : Option GoError))
      = getPropertyMinProperties env schema ∧
    (el'.MaxPropertiesHasSet, el'.MaxProperties, (none : Option GoError))
      = getPropertyMaxProperties env schema := by
  unfold populateHead at h
  split at h
  · simp at h
  · split at h
    · simp at h
    · rename_i hmin
      split at h
      · simp at h
      · rename_i hmax
        obtain ⟨required, hr⟩ := populateRequired_shape _ _ _ _ h
        rw [hr, hmin, hmax]
        exact ⟨rfl, rfl⟩

theorem Populate_cases (env : Collaborators κ δ) (el el' : TypeBsonObject κ δ)
    (schema : Schema) (err : Option GoError) (h : Populate env el schema = some (el', err)) :
    (populateHead env el schema = some (el', err) ∧ err ≠ none) ∨
    ∃ el₀ properties, populateHead env el schema = some (el₀, none) ∧
      populateBsonType env schema = some (properties, err) ∧
      el' = { el₀ with Properties := some properties } := by
  rw [Populate_eq] at h
  cases hh : populateHead env el schema with
  | none => rw [hh] at h; simp at h
  | some r =>
    obtain ⟨el₀, e⟩ := r
    rw [hh] at h
    cases e with
    | some e =>
      simp only [Option.some.injEq, Prod.mk.injEq] at h
      obtain ⟨rfl, rfl⟩ := h
      exact Or.inl ⟨rfl, by simp⟩
    | none =>
      simp only at h
      cases hp : populateBsonType env schema with
      | none => rw [hp] at h; simp at h
      | some r =>
        obtain ⟨properties, e⟩ := r
        rw [hp] at h
        simp only [Option.some.injEq, Prod.mk.injEq] at h
        obtain ⟨rfl, rfl⟩ := h
        exact Or.inr ⟨el₀, properties, rfl, rfl, rfl⟩

theorem Populate_frame (env : Collaborators κ δ) (el el' : TypeBsonObject κ δ)
    (schema : Schema) (err : Option GoError) (h : Populate env el schema = some (el', err)) :
    el'.PatternProperties = el.PatternProperties ∧
    el'.AdditionalPropertiesBoolIsSet = el.AdditionalPropertiesBoolIsSet ∧
    el'.AdditionalPropertiesBoolValue = el.AdditionalPropertiesBoolValue ∧
    el'.AdditionalPropertiesMap = el.AdditionalPropertiesMap ∧
    el'.Dependencies = el.Dependencies := by
  rcases Populate_cases env el el' schema err h with ⟨hh, -⟩ | ⟨el₀, properties, hh, -, rfl⟩
  · exact populateHead_frame env el el' schema err hh
  · exact populateHead_frame env el el₀ schema none hh

theorem Populate_ok_bounds (env : Collaborators κ δ) (el el' : TypeBsonObject κ δ)
    (schema : Schema) (h : Populate env el schema = some (el', none)) :
    (el'.MinPropertiesHasSet, el'.MinProperties, (none : Option GoError))
      = getPropertyMinProperties env schema ∧
    (el'.MaxPropertiesHasSet, el'.MaxProperties, (none : Option GoError))
      = getPropertyMaxProperties env schema := by
  rcases Populate_cases env el el' schema none h with ⟨-, hne⟩ | ⟨el₀, properties, hh, -, rfl⟩
  · exact absurd rfl hne
  · exact populateHead_ok_bounds env el el₀ schema hh

end Fields

/-! ## The recursion of `Populate` -/

section Recursion

variable {κ δ : Type}

theorem switchTypeString_eq_with (env : Collaborators κ δ) (typeString : String)
    (schema : Schema) :
    switchTypeString env typeString schema
      = switchTypeStringWith (Populate env (zeroObject env)) env typeString schema := by
  rw [switchTypeString]
  rfl

theorem dispatcher_eq_with (env : Collaborators κ δ)
    (propertiesPointer : Option (Properties κ δ)) (key typeString : String) (schema : Schema) :
    typeStringToTypeObjectPopulated env propertiesPointer key typeString schema
      = typeStringToTypeObjectPopulatedWith (Populate env (zeroObject env)) env
          propertiesPointer key typeString schema := by
  rw [typeStringToTypeObjectPopulated_eq, switchTypeString_eq_with]
  rfl

theorem populateTypes_eq_with (env : Collaborators κ δ) (key : String) (cell : Schema)
    (types : List String) (properties : Properties κ δ) (err : Option GoError) :
    populateTypes env key cell types properties err
      = populateTypesWith (Populate env (zeroObject env)) env key cell types properties err := by
  induction types generalizing properties err with
  | nil =>
    rw [populateTypes_nil]
    rfl
  | cons t rest ih =>
    rw [populateTypes_cons, dispatcher_eq_with]
    unfold populateTypesWith
    cases typeStringToTypeObjectPopulatedWith (Populate env (zeroObject env)) env
        (some properties) key t cell with
    | none => rfl
    | some r =>
      obtain ⟨p, e⟩ := r
      cases e with
      | some e => rfl
      | none => exact ih p none

theorem populateCells_eq_with (env : Collaborators κ δ) (cells : List (String × Value))
    (properties : Properties κ δ) (err : Option GoError) :
    populateCells env cells properties err
      = populateCellsWith (Populate env (zeroObject env)) env cells properties err := by
  induction cells generalizing properties err with
  | nil =>
    rw [populateCells_nil]
    rfl
  | cons kv rest ih =>
    obtain ⟨key, v⟩ := kv
    cases v with
    | obj cell =>
      rw [populateCells_cons_obj, populateTypes_eq_with]
      unfold populateCellsWith
      cases populateTypesWith (Populate env (zeroObject env)) env key cell
          (getPropertyBsonTypeAsSlice cell).1 properties (getPropertyBsonTypeAsSlice cell).2 with
      | none => rfl
      | some r =>
        cases r with
        | returned p e => rfl
        | finished p e => exact ih p e
    | _ =>
      rw [populateCells_cons_other _ _ _ _ _ _ (by intro c hc; cases hc)]
      rfl

theorem Populate_eq_with (env : Collaborators κ δ) (el : TypeBsonObject κ δ)
    (schema : Schema) :
    Populate env el schema = populateWith (Populate env (zeroObject env)) env el schema := by
  rw [Populate_eq, populateBsonType_eq_cells, populateCells_eq_with]
  unfold populateWith
  cases populateHead env el schema with
  | none => rfl
  | some r =>
    obtain ⟨el', e⟩ := r
    cases e with
    | some e => rfl
    | none =>
      cases populateCellsWith (Populate env (zeroObject env)) env (rawProperties schema) []
          none with
      | none => rfl
      | some exit => rfl

theorem switchTypeStringWith_congr
    (again₁ again₂ : Schema → Option (TypeBsonObject κ δ × Option GoError))
    (env : Collaborators κ δ) (typeString : String) (schema : Schema)
    (h : again₁ schema = again₂ schema) :
    switchTypeStringWith again₁ env typeString schema
      = switchTypeStringWith again₂ env typeString schema := by
  unfold switchTypeStringWith
  rw [h]

theorem populateTypesWith_congr
    (again₁ again₂ : Schema → Option (TypeBsonObject κ δ × Option GoError))
    (env : Collaborators κ δ) (key : String) (cell : Schema) (types : List String)
    (properties : Properties κ δ) (err : Option GoError) (h : again₁ cell = again₂ cell) :
    populateTypesWith again₁ env key cell types properties err
      = populateTypesWith again₂ env key cell types properties err := by
  induction types generalizing properties err with
  | nil => rfl
  | cons t rest ih =>
    unfold populateTypesWith typeStringToTypeObjectPopulatedWith
    rw [switchTypeStringWith_congr again₁ again₂ env t cell h]
    cases switchTypeStringWith again₂ env t cell with
    | none => rfl
    | some r =>
      cases r with
      | returned e => rfl
      | fellOut o e =>
        cases e with
        | some e => rfl
        | none => exact ih _ none

theorem populateCellsWith_congr
    (again₁ again₂ : Schema → Option (TypeBsonObject κ δ × Option GoError))
    (env : Collaborators κ δ) (cells : List (String × Value))
    (properties : Properties κ δ) (err : Option GoError)
    (h : ∀ key cell, (key, Value.obj cell) ∈ cells → again₁ cell = again₂ cell) :
    populateCellsWith again₁ env cells properties err
      = populateCellsWith again₂ env cells properties err := by
  induction cells generalizing properties err with
  | nil => rfl
  | cons kv rest ih =>
    obtain ⟨key, v⟩ := kv
    cases v with
    | obj cell =>
      unfold populateCellsWith
      rw [populateTypesWith_congr again₁ again₂ env key cell _ properties _
        (h key cell (List.mem_cons_self _ _))]
      cases populateTypesWith again₂ env key cell (getPropertyBsonTypeAsSlice cell).1
          properties (getPropertyBsonTypeAsSlice cell).2 with
      | none => rfl
      | some r =>
        cases r with
        | returned p e => rfl
        | finished p e =>
          exact ih p e (fun k c hc => h k c (List.mem_cons_of_mem _ hc))
    | _ => rfl

theorem populateWith_congr
    (again₁ again₂ : Schema → Option (TypeBsonObject κ δ × Option GoError))
    (env : Collaborators κ δ) (el : TypeBsonObject κ δ) (schema : Schema)
    (h : ∀ key cell, (key, Value.obj cell) ∈ rawProperties schema →
      again₁ cell = again₂ cell) :
    populateWith again₁ env el schema = populateWith again₂ env el schema := by
  unfold populateWith
  rw [populateCellsWith_congr again₁ again₂ env _ [] none h]

theorem depth_le_depthFields (kvs : List (String × Value)) (k : String) (v : Value)
    (h : (k, v) ∈ kvs) : v.depth ≤ depthFields kvs := by
  induction kvs with
  | nil => simp at h
  | cons kv rest ih =>
    obtain ⟨k', v'⟩ := kv
    simp only [depthFields]
    rcases List.mem_cons.1 h with h | h
    · injection h with h1 h2
      subst h2
      exact le_max_left _ _
    · exact le_trans (ih h) (le_max_right _ _)

theorem mem_of_mapGet {β : Type} (m : List (String × β)) (k : String) (v : β)
    (h : mapGet m k = some v) : (k, v) ∈ m := by
  induction m with
  | nil => simp [mapGet] at h
  | cons kv rest ih =>
    obtain ⟨k', v'⟩ := kv
    unfold mapGet at h
    split_ifs at h with hk
    · simp only [Option.some.injEq] at h
      subst hk
      subst h
      exact List.mem_cons_self _ _
    · exact List.mem_cons_of_mem _ (ih h)

theorem depthFields_rawProperties (schema : Schema) :
    depthFields (rawProperties schema) < depthFields schema ∨ rawProperties schema = [] := by
  unfold rawProperties
  split
  · rename_i newSchema h
    left
    have := depth_le_depthFields schema _ _ (mem_of_mapGet schema _ _ h)
    simp only [Value.depth] at this
    omega
  · right
    rfl

theorem depthFields_nested (schema : Schema) (key : String) (cell : Schema)
    (h : (key, Value.obj cell) ∈ rawProperties schema) :
    depthFields cell + 2 ≤ depthFields schema := by
  have h1 := depth_le_depthFields _ _ _ h
  simp only [Value.depth] at h1
  rcases depthFields_rawProperties schema with h2 | h2
  · omega
  · rw [h2] at h
    simp at h

theorem populateWithin_eq_Populate (env : Collaborators κ δ)
    (base : TypeBsonObject κ δ → Schema → Option (TypeBsonObject κ δ × Option GoError))
    (n : Nat) (el : TypeBsonObject κ δ) (schema : Schema) (h : depthFields schema < n) :
    populateWithin env base n el schema = Populate env el schema := by
  induction n generalizing el schema with
  | zero => omega
  | succ n ih =>
    rw [Populate_eq_with]
    show populateWith (populateWithin env base n (zeroObject env)) env el schema = _
    apply populateWith_congr
    intro key cell hc
    have := depthFields_nested schema key cell hc
    exact ih (zeroObject env) cell (by omega)

end Recursion

/-! ## The type names and elements of the entries -/

section Known

variable {κ δ : Type}

theorem populateTypes_finished_preserves (I : Properties κ δ → Prop) (env : Collaborators κ δ)
    (key : String) (cell : Schema)
    (hI : ∀ properties t properties',
      typeStringToTypeObjectPopulated env (some properties) key t cell
        = some (properties', none) → I properties → I properties')
    (types : List String) (properties properties' : Properties κ δ) (err err' : Option GoError)
    (h : populateTypes env key cell types properties err
      = some (LoopExit.finished properties' err'))
    (hp : I properties) : I properties' := by
  induction types generalizing properties err with
  | nil =>
    rw [populateTypes_nil] at h
    simp only [Option.some.injEq, LoopExit.finished.injEq] at h
    rw [← h.1]
    exact hp
  | cons t rest ih =>
    rw [populateTypes_cons] at h
    cases hd : typeStringToTypeObjectPopulated env (some properties) key t cell with
    | none => rw [hd] at h; simp at h
    | some r =>
      obtain ⟨p₁, e⟩ := r
      cases e with
      | some e => rw [hd] at h; simp at h
      | none =>
        rw [hd] at h
        exact ih _ _ h (hI _ _ _ hd hp)

theorem populateCells_finished_preserves (I : Properties κ δ → Prop) (env : Collaborators κ δ)
    (hI : ∀ properties key t cell properties',
      typeStringToTypeObjectPopulated env (some properties) key t cell
        = some (properties', none) → I properties → I properties')
    (cells : List (String × Value)) (properties properties' : Properties κ δ)
    (err err' : Option GoError)
    (h : populateCells env cells properties err = some (LoopExit.finished properties' err'))
    (hp : I properties) : I properties' := by
  induction cells generalizing properties err with
  | nil =>
    rw [populateCells_nil] at h
    simp only [Option.some.injEq, LoopExit.finished.injEq] at h
    rw [← h.1]
    exact hp
  | cons kv rest ih =>
    obtain ⟨key, v⟩ := kv
    cases v with
    | obj cell =>
      rw [populateCells_cons_obj] at h
      cases ht : populateTypes env key cell (getPropertyBsonTypeAsSlice cell).1 properties
          (getPropertyBsonTypeAsSlice cell).2 with
      | none => rw [ht] at h; simp at h
      | some r =>
        cases r with
        | returned p e => rw [ht] at h; simp at h
        | finished p₁ e₁ =>
          rw [ht] at h
          exact ih _ _ h
            (populateTypes_finished_preserves I env key cell
              (fun properties t properties' => hI properties key t cell properties')
              _ _ _ _ _ ht hp)
    | _ =>
      rw [populateCells_cons_other _ _ _ _ _ _ (by intro c hc; cases hc)] at h
      simp at h

theorem dispatcher_ok_name (env : Collaborators κ δ) (properties properties' : Properties κ δ)
    (key t : String) (cell : Schema)
    (h : typeStringToTypeObjectPopulated env (some properties) key t cell
      = some (properties', none)) :
    t ∈ recognizedNames ∨ t = "timestamp" := by
  by_contra hn
  rw [not_or] at hn
  rw [dispatcher_other env (some properties) key t cell hn.1 hn.2] at h
  simp at h

theorem EntriesKnown_dispatcher (env : Collaborators κ δ)
    (properties : Properties κ δ) (key t : String) (cell : Schema)
    (properties' : Properties κ δ)
    (h : typeStringToTypeObjectPopulated env (some properties) key t cell
      = some (properties', none))
    (hp : EntriesKnown properties) : EntriesKnown properties' := by
  obtain ⟨o, rfl, ho⟩ := dispatcher_ok_shape env properties properties' key t cell h
  have hname := dispatcher_ok_name env properties _ key t cell h
  intro p t' b hb ht'
  rw [entryAt_storeElement] at hb
  split_ifs at hb with hpt
  · obtain ⟨rfl, rfl⟩ := hpt
    simp only [Option.some.injEq] at hb
    rw [← hb]
    rcases hname with hname | hname
    · exact ⟨hname, ho ht'⟩
    · exact absurd hname ht'
  · exact hp p t' b hb ht'

theorem EntriesKnown_of_Populate (env : Collaborators κ δ) (el el' : TypeBsonObject κ δ)
    (schema : Schema) (properties : Properties κ δ)
    (h : Populate env el schema = some (el', none)) (hp : el'.Properties = some properties) :
    EntriesKnown properties := by
  rcases Populate_cases env el el' schema none h with ⟨-, hne⟩ | ⟨el₀, properties₀, -, hb, rfl⟩
  · exact absurd rfl hne
  · simp only [Option.some.injEq] at hp
    subst hp
    exact populateCells_finished_preserves EntriesKnown env (EntriesKnown_dispatcher env)
      _ _ _ _ _ (populateBsonType_ok_cells env schema _ hb)
      (fun _ _ _ hn => by simp [entryAt, mapGet] at hn)

theorem populateBsonType_timestamp (env : Collaborators κ δ) (key : String) :
    populateBsonType env
        [("bsonType", Value.str "object"),
         ("properties", Value.obj [(key, Value.obj [("bsonType", Value.str "timestamp")])])]
      = some ([(key, [("timestamp", ⟨none⟩)])], none) :=
  (populateBsonType_of_properties env
    [("bsonType", Value.str "object"),
     ("properties", Value.obj [(key, Value.obj [("bsonType", Value.str "timestamp")])])]
    [(key, Value.obj [("bsonType", Value.str "timestamp")])] rfl).trans
    (congrArg (Option.map LoopExit.results)
      ((populateCells_cons_finished env key [("bsonType", Value.str "timestamp")] [] []
          [(key, [("timestamp", ⟨none⟩)])] none none
          ((populateTypes_cons_ok env key _ "timestamp" [] [] _ _
              (dispatcher_timestamp env (some []) key _)).trans
            (populateTypes_nil env key _ _ none))).trans
        (populateCells_nil env _ none)))

end Known

/-! ## The claims -/

section Claims

variable {κ δ : Type}

/-- C1 (defect of the code): `timestamp` is not one of the nine recognized type
names, yet for every key and schema node the dispatcher returns no error for
it: the empty `case "timestamp":` leaves `objType` nil, and the entry
`properties[key]["timestamp"]` is recorded with a nil element.  The properties
step of Object Populate does not fail either on a schema whose one property
declares `timestamp`. -/
theorem timestamp_dispatch_returns_no_error (env : Collaborators κ δ)
    (propertiesPointer : Option (Properties κ δ)) (key : String) (schema : Schema) :
    "timestamp" ∉ recognizedNames ∧
    typeStringToTypeObjectPopulated env propertiesPointer key "timestamp" schema
      = some (storeElement (propertiesPointer.getD []) key "timestamp" none, none) ∧
    populateBsonType env
        [("properties", Value.obj [(key, Value.obj [("bsonType", Value.str "timestamp")])])]
      = some ([(key, [("timestamp", ⟨none⟩)])], none) := by
  refine ⟨by decide, dispatcher_timestamp env propertiesPointer key schema, ?_⟩
  have hd : typeStringToTypeObjectPopulated env (some []) key "timestamp"
      [("bsonType", Value.str "timestamp")]
      = some ([(key, [("timestamp", ⟨none⟩)])], none) := dispatcher_timestamp env _ key _
  have ht : populateTypes env key [("bsonType", Value.str "timestamp")]
      (getPropertyBsonTypeAsSlice [("bsonType", Value.str "timestamp")]).1 []
      (getPropertyBsonTypeAsSlice [("bsonType", Value.str "timestamp")]).2
      = some (LoopExit.finished [(key, [("timestamp", ⟨none⟩)])] none) :=
    (populateTypes_cons_ok env key _ "timestamp" [] [] _ none hd).trans
      (populateTypes_nil env key _ _ none)
  have hc : populateCells env [(key, Value.obj [("bsonType", Value.str "timestamp")])] [] none
      = some (LoopExit.finished [(key, [("timestamp", ⟨none⟩)])] none) :=
    (populateCells_cons_finished env key _ [] [] _ none none ht).trans
      (populateCells_nil env _ none)
  have hp := populateBsonType_of_properties env
    ([("properties", Value.obj [(key, Value.obj [("bsonType", Value.str "timestamp")])])])
    ([(key, Value.obj [("bsonType", Value.str "timestamp")])]) rfl
  rw [hp, hc]
  rfl

/-- C2: for a recognized type name `n` and a schema node `s` on which the
`Populate` of the matching variant succeeds with the populated value `elem`,
the dispatcher returns no error and records under `properties[key][n]` a
schema node whose element is `elem`, the variant matching `n` populated from
`s`. -/
theorem dispatcher_records_matching_variant (env : Collaborators κ δ)
    (propertiesPointer : Option (Properties κ δ)) (key n : String) (s : Schema)
    (elem : InterfaceBson κ δ) (h : populateVariant env n s = some (elem, none)) :
    ∃ properties,
      typeStringToTypeObjectPopulated env propertiesPointer key n s = some (properties, none) ∧
      properties = storeElement (propertiesPointer.getD []) key n (some elem) ∧
      entryAt properties key n = some ⟨some elem⟩ :=
  ⟨_, dispatcher_of_populateVariant_ok env propertiesPointer key n s elem h, rfl,
    entryAt_storeElement_self _ _ _ _⟩

/-- Witness of C2: the name `string` on the node `{"bsonType": "string"}`. -/
theorem dispatcher_records_matching_variant_witness :
    populateVariant sampleCollaborators "string" [("bsonType", Value.str "string")]
      = some (InterfaceBson.TypeBsonString
          { BsonType := ["string"], Title := none, Description := none, Enum := none }, none) ∧
    ∃ properties,
      typeStringToTypeObjectPopulated sampleCollaborators none "name" "string"
          [("bsonType", Value.str "string")] = some (properties, none) ∧
      properties = storeElement [] "name" "string" (some (InterfaceBson.TypeBsonString
          { BsonType := ["string"], Title := none, Description := none, Enum := none })) ∧
      entryAt properties "name" "string" = some ⟨some (InterfaceBson.TypeBsonString
          { BsonType := ["string"], Title := none, Description := none, Enum := none })⟩ :=
  ⟨rfl, dispatcher_records_matching_variant sampleCollaborators none "name" "string"
    [("bsonType", Value.str "string")] _ rfl⟩

/-- C5: `getPropertyBsonTypeAsSlice` returns an error exactly when the schema
node has a `bsonType` whose value is neither a string nor an array consisting
only of strings; a missing `bsonType`, a string and an array of strings give no
error. -/
theorem getPropertyBsonTypeAsSlice_error_iff (schema : Schema) :
    (getPropertyBsonTypeAsSlice schema).2 ≠ none ↔
      ∃ v, mapGet schema "bsonType" = some v ∧ (∀ s, v ≠ Value.str s) ∧
        ∀ names : List String, v ≠ Value.arr (names.map Value.str) := by
  unfold getPropertyBsonTypeAsSlice
  cases hb : mapGet schema "bsonType" with
  | none => simp
  | some v =>
    cases v with
    | str s => simp
    | arr vs =>
      simp only [ne_eq, Option.some.injEq, exists_eq_left', reduceCtorEq, not_false_eq_true,
        implies_true, Value.arr.injEq, true_and]
      constructor
      · intro h names hn
        subst hn
        exact h (by rw [bsonTypeLoop_strings])
      · intro h hnone
        obtain ⟨names, hn⟩ := bsonTypeLoop_no_error vs [] hnone
        exact h names hn
    | _ => simp

/-- C3: when the common-fields, min/max and required steps succeed and the
`Populate` of a child variant, built for the declared type `t` of the property
`key`, returns the error `e` (the properties before `key` and the type names
before `t` having been built), Object Populate returns exactly `e`; the object
holds the map built up to there, so nothing after the failing child has been
processed. -/
theorem Populate_returns_child_error (env : Collaborators κ δ) (el el' : TypeBsonObject κ δ)
    (schema : Schema) (pre post : List (String × Value)) (key : String) (cell : Schema)
    (tpre tpost : List String) (t : String) (properties₀ properties₁ : Properties κ δ)
    (err₀ err₁ : Option GoError) (elem : InterfaceBson κ δ) (e : GoError)
    (hhead : populateHead env el schema = some (el', none))
    (hraw : mapGet schema "properties" = some (Value.obj (pre ++ (key, Value.obj cell) :: post)))
    (hpre : populateCells env pre [] none = some (LoopExit.finished properties₀ err₀))
    (htypes : (getPropertyBsonTypeAsSlice cell).1 = tpre ++ t :: tpost)
    (htpre : populateTypes env key cell tpre properties₀ (getPropertyBsonTypeAsSlice cell).2
      = some (LoopExit.finished properties₁ err₁))
    (hchild : populateVariant env t cell = some (elem, some e)) :
    Populate env el schema = some ({ el' with Properties := some properties₁ }, some e) :=
  Populate_of_child_failure env el el' schema pre post key cell tpre tpost t properties₀
    properties₁ err₀ err₁ elem e hhead hraw hpre htypes htpre hchild

/-- Witness of C3: the property `address` is an object whose `minProperties`
is not an integer; it comes after the property `name`, a string. -/
theorem Populate_returns_child_error_witness :
    Populate sampleCollaborators (zeroObject sampleCollaborators)
        [("bsonType", Value.str "object"),
         ("properties", Value.obj
           [("name", Value.obj [("bsonType", Value.str "string")]),
            ("address", Value.obj [("bsonType", Value.str "object"),
                                   ("minProperties", Value.str "two")]),
            ("age", Value.obj [("bsonType", Value.str "int")])])]
      = some ({ zeroObject sampleCollaborators with
                  Common := { BsonType := ["object"], Title := none, Description := none,
                              Enum := none }
                  Properties := some [("name", [("string", ⟨some (InterfaceBson.TypeBsonString
                    { BsonType := ["string"], Title := none, Description := none,
                      Enum := none })⟩)])] },
          some "the value must be an integer") := by
  have hname : populateCells sampleCollaborators
      [("name", Value.obj [("bsonType", Value.str "string")])] [] none
      = some (LoopExit.finished [("name", [("string", ⟨some (InterfaceBson.TypeBsonString
          { BsonType := ["string"], Title := none, Description := none, Enum := none })⟩)])]
          none) :=
    (populateCells_cons_finished sampleCollaborators "name" _ [] [] _ none none
      ((populateTypes_cons_ok sampleCollaborators "name" _ "string" [] [] _ none
          (dispatcher_of_populateVariant_ok sampleCollaborators (some []) "name" "string"
            [("bsonType", Value.str "string")] _ rfl)).trans
        (populateTypes_nil sampleCollaborators "name" _ _ none))).trans
      (populateCells_nil sampleCollaborators _ none)
  have haddress : populateVariant sampleCollaborators "object"
      [("bsonType", Value.str "object"), ("minProperties", Value.str "two")]
      = some (InterfaceBson.TypeBsonObject
          { zeroObject sampleCollaborators with
              Common := { BsonType := ["object"], Title := none, Description := none,
                          Enum := none }
              MinPropertiesHasSet := true },
          some "the value must be an integer") := by
    have hhead : populateHead sampleCollaborators (zeroObject sampleCollaborators)
        [("bsonType", Value.str "object"), ("minProperties", Value.str "two")]
        = some ({ zeroObject sampleCollaborators with
              Common := { BsonType := ["object"], Title := none, Description := none,
                          Enum := none }
              MinPropertiesHasSet := true },
          some "the value must be an integer") := rfl
    rw [populateVariant_object, Populate_of_head_err sampleCollaborators _ _ _ _ hhead]
  have hhead : populateHead sampleCollaborators (zeroObject sampleCollaborators)
      [("bsonType", Value.str "object"),
       ("properties", Value.obj
         [("name", Value.obj [("bsonType", Value.str "string")]),
          ("address", Value.obj [("bsonType", Value.str "object"),
                                 ("minProperties", Value.str "two")]),
          ("age", Value.obj [("bsonType", Value.str "int")])])]
      = some ({ zeroObject sampleCollaborators with
            Common := { BsonType := ["object"], Title := none, Description := none,
                        Enum := none } }, none) := rfl
  exact Populate_returns_child_error sampleCollaborators _ _ _
    [("name", Value.obj [("bsonType", Value.str "string")])]
    [("age", Value.obj [("bsonType", Value.str "int")])] "address"
    [("bsonType", Value.str "object"), ("minProperties", Value.str "two")]
    [] [] "object" _ _ none none _ _ hhead rfl hname rfl
    (populateTypes_nil sampleCollaborators "address" _ _ _) haddress

/-- C4, as amended: when Object Populate returns an error raised by the
common-fields, min/max or required step, `Properties` is left as it was before
the call (unset on a fresh object).  When the `Populate` of a recognized child
variant fails in the properties step, Object Populate returns that error and
`Properties` is set to the map built up to the failure: it holds an entry
exactly for the properties visited before the failing one, under each of
their type names, and for the type names of the failing property that come
before the failing one; the failing call itself hands the map back as it was,
adding no entry. -/
theorem Populate_error_leaves_map_built_so_far (env : Collaborators κ δ)
    (el el' : TypeBsonObject κ δ) (schema : Schema) (e : GoError) :
    (populateHead env el schema = some (el', some e) →
      Populate env el schema = some (el', some e) ∧ el'.Properties = el.Properties) ∧
    (∀ (pre post : List (String × Value)) (key : String) (cell : Schema)
        (tpre tpost : List String) (t : String) (properties₀ properties₁ : Properties κ δ)
        (err₀ err₁ : Option GoError) (elem : InterfaceBson κ δ),
      populateHead env el schema = some (el', none) →
      mapGet schema "properties" = some (Value.obj (pre ++ (key, Value.obj cell) :: post)) →
      populateCells env pre [] none = some (LoopExit.finished properties₀ err₀) →
      (getPropertyBsonTypeAsSlice cell).1 = tpre ++ t :: tpost →
      populateTypes env key cell tpre properties₀ (getPropertyBsonTypeAsSlice cell).2
        = some (LoopExit.finished properties₁ err₁) →
      populateVariant env t cell = some (elem, some e) →
      Populate env el schema = some ({ el' with Properties := some properties₁ }, some e) ∧
      ∀ p t', entryAt properties₁ p t' ≠ none ↔
        (∃ c, (p, Value.obj c) ∈ pre ∧ t' ∈ (getPropertyBsonTypeAsSlice c).1) ∨
          (p = key ∧ t' ∈ tpre)) ∧
    (∀ (propertiesPointer : Option (Properties κ δ)) (key n : String) (s : Schema)
        (elem : InterfaceBson κ δ), populateVariant env n s = some (elem, some e) →
      typeStringToTypeObjectPopulated env propertiesPointer key n s
        = some (propertiesPointer.getD [], some e)) := by
  refine ⟨fun h => ⟨Populate_of_head_err env el el' schema e h,
      populateHead_Properties env el el' schema _ h⟩, ?_,
    fun propertiesPointer key n s elem h =>
      dispatcher_of_populateVariant_err env propertiesPointer key n s elem e h⟩
  intro pre post key cell tpre tpost t properties₀ properties₁ err₀ err₁ elem hhead hraw hpre
    htypes htpre hchild
  refine ⟨Populate_of_child_failure env el el' schema pre post key cell tpre tpost t properties₀
    properties₁ err₀ err₁ elem e hhead hraw hpre htypes htpre hchild, ?_⟩
  obtain ⟨i1, -, -⟩ := populateCells_finished env pre _ _ _ _ hpre
  obtain ⟨j1, -, -, -, -⟩ := populateTypes_finished env key cell tpre _ _ _ _ htpre
  intro p t'
  rw [j1, i1]
  constructor
  · rintro ((hx | hx) | hx)
    · exact absurd rfl hx
    · exact Or.inl hx
    · exact Or.inr hx
  · rintro (hx | hx)
    · exact Or.inl (Or.inr hx)
    · exact Or.inr hx

/-- Witness of C4 as amended: a `minProperties` that is not an integer fails
the min/max step and leaves `Properties` unset; the same defect in the nested
object `address`, visited after the property `name`, fails the properties
step, and `Properties` holds the child built for `name` and nothing else;
`Populate` of the string variant failing on a node hands the map back
unchanged. -/
theorem Populate_error_leaves_map_built_so_far_witness :
    (Populate sampleCollaborators (zeroObject sampleCollaborators)
        [("minProperties", Value.str "two"),
         ("properties", Value.obj [("name", Value.obj [("bsonType", Value.str "string")])])]
      = some ({ zeroObject sampleCollaborators with MinPropertiesHasSet := true },
          some "the value must be an integer") ∧
      ({ zeroObject sampleCollaborators with MinPropertiesHasSet := true } :
        TypeBsonObject CommonFields CommonFields).Properties = none) ∧
    (Populate sampleCollaborators (zeroObject sampleCollaborators)
        [("bsonType", Value.str "object"),
         ("properties", Value.obj
           [("name", Value.obj [("bsonType", Value.str "string")]),
            ("address", Value.obj [("bsonType", Value.str "object"),
                                   ("minProperties", Value.str "two")]),
            ("age", Value.obj [("bsonType", Value.str "int")])])]
      = some ({ zeroObject sampleCollaborators with
                  Common := { BsonType := ["object"], Title := none, Description := none,
                              Enum := none }
                  Properties := some [("name", [("string", ⟨some (InterfaceBson.TypeBsonString
                    { BsonType := ["string"], Title := none, Description := none,
                      Enum := none })⟩)])] },
          some "the value must be an integer") ∧
      ∀ p t', entryAt ([("name", [("string", ⟨some (InterfaceBson.TypeBsonString
                  { BsonType := ["string"], Title := none, Description := none,
                    Enum := none })⟩)])] : Properties CommonFields CommonFields) p t' ≠ none ↔
        (∃ c, (p, Value.obj c) ∈ [("name", Value.obj [("bsonType", Value.str "string")])] ∧
          t' ∈ (getPropertyBsonTypeAsSlice c).1) ∨ (p = "address" ∧ t' ∈ [])) ∧
    typeStringToTypeObjectPopulated sampleCollaborators
        (some [("name", [("string", ⟨none⟩)])]) "tags" "string"
        [("bsonType", Value.arr [Value.str "string", Value.num 5])]
      = some ([("name", [("string", ⟨none⟩)])], some "the 'bsonType' values must be a string") := by
  have hname : populateCells sampleCollaborators
      [("name", Value.obj [("bsonType", Value.str "string")])] [] none
      = some (LoopExit.finished [("name", [("string", ⟨some (InterfaceBson.TypeBsonString
          { BsonType := ["string"], Title := none, Description := none, Enum := none })⟩)])]
          none) :=
    (populateCells_cons_finished sampleCollaborators "name" _ [] [] _ none none
      ((populateTypes_cons_ok sampleCollaborators "name" _ "string" [] [] _ none
          (dispatcher_of_populateVariant_ok sampleCollaborators (some []) "name" "string"
            [("bsonType", Value.str "string")] _ rfl)).trans
        (populateTypes_nil sampleCollaborators "name" _ _ none))).trans
      (populateCells_nil sampleCollaborators _ none)
  have hheadAddress : populateHead sampleCollaborators (zeroObject sampleCollaborators)
      [("bsonType", Value.str "object"), ("minProperties", Value.str "two")]
      = some ({ zeroObject sampleCollaborators with
            Common := { BsonType := ["object"], Title := none, Description := none,
                        Enum := none }
            MinPropertiesHasSet := true },
        some "the value must be an integer") := rfl
  have haddress : populateVariant sampleCollaborators "object"
      [("bsonType", Value.str "object"), ("minProperties", Value.str "two")]
      = some (InterfaceBson.TypeBsonObject
          { zeroObject sampleCollaborators with
              Common := { BsonType := ["object"], Title := none, Description := none,
                          Enum := none }
              MinPropertiesHasSet := true },
          some "the value must be an integer") := by
    rw [populateVariant_object, Populate_of_head_err sampleCollaborators _ _ _ _ hheadAddress]
  have hhead : populateHead sampleCollaborators (zeroObject sampleCollaborators)
      [("bsonType", Value.str "object"),
       ("properties", Value.obj
         [("name", Value.obj [("bsonType", Value.str "string")]),
          ("address", Value.obj [("bsonType", Value.str "object"),
                                 ("minProperties", Value.str "two")]),
          ("age", Value.obj [("bsonType", Value.str "int")])])]
      = some ({ zeroObject sampleCollaborators with
            Common := { BsonType := ["object"], Title := none, Description := none,
                        Enum := none } }, none) := rfl
  exact ⟨(Populate_error_leaves_map_built_so_far sampleCollaborators
      (zeroObject sampleCollaborators)
      { zeroObject sampleCollaborators with MinPropertiesHasSet := true }
      [("minProperties", Value.str "two"),
       ("properties", Value.obj [("name", Value.obj [("bsonType", Value.str "string")])])]
      "the value must be an integer").1 rfl,
    (Populate_error_leaves_map_built_so_far sampleCollaborators
      (zeroObject sampleCollaborators) _ _ "the value must be an integer").2.1
      [("name", Value.obj [("bsonType", Value.str "string")])]
      [("age", Value.obj [("bsonType", Value.str "int")])] "address"
      [("bsonType", Value.str "object"), ("minProperties", Value.str "two")]
      [] [] "object" _ _ none none _ hhead rfl hname rfl
      (populateTypes_nil sampleCollaborators "address" _ _ _) haddress,
    (Populate_error_leaves_map_built_so_far sampleCollaborators
      (zeroObject sampleCollaborators) (zeroObject sampleCollaborators) []
      "the 'bsonType' values must be a string").2.2
      (some [("name", [("string", ⟨none⟩)])]) "tags" "string"
      [("bsonType", Value.arr [Value.str "string", Value.num 5])]
      (InterfaceBson.TypeBsonString
        { BsonType := ["string"], Title := none, Description := none, Enum := none }) rfl⟩

/-- Counterexample to C4 as stated: the property `b` declares the unrecognized
type name `nope`, Object Populate returns the error, and `Properties` holds
the child built for `a` and an entry with a nil element for `b`. -/
theorem Populate_error_retains_entries :
    (Populate sampleCollaborators (zeroObject sampleCollaborators)
        [("bsonType", Value.str "object"),
         ("properties", Value.obj
           [("a", Value.obj [("bsonType", Value.str "string")]),
            ("b", Value.obj [("bsonType", Value.str "nope")])])]).map
        (fun r => (r.1.Properties, r.2))
      = some (some [("a", [("string", ⟨some (InterfaceBson.TypeBsonString
                  { BsonType := ["string"], Title := none, Description := none,
                    Enum := none })⟩)]),
                    ("b", [("nope", ⟨none⟩)])],
          some "type not implemented yet") := by
  have ha : populateTypes sampleCollaborators "a" [("bsonType", Value.str "string")]
      (getPropertyBsonTypeAsSlice [("bsonType", Value.str "string")]).1 []
      (getPropertyBsonTypeAsSlice [("bsonType", Value.str "string")]).2
      = some (LoopExit.finished [("a", [("string", ⟨some (InterfaceBson.TypeBsonString
          { BsonType := ["string"], Title := none, Description := none, Enum := none })⟩)])]
          none) :=
    (populateTypes_cons_ok sampleCollaborators "a" _ "string" [] [] _ none
        (dispatcher_of_populateVariant_ok sampleCollaborators (some []) "a" "string"
          [("bsonType", Value.str "string")] _ rfl)).trans
      (populateTypes_nil sampleCollaborators "a" _ _ none)
  have hb : populateTypes sampleCollaborators "b" [("bsonType", Value.str "nope")]
      (getPropertyBsonTypeAsSlice [("bsonType", Value.str "nope")]).1
      [("a", [("string", ⟨some (InterfaceBson.TypeBsonString
          { BsonType := ["string"], Title := none, Description := none, Enum := none })⟩)])]
      (getPropertyBsonTypeAsSlice [("bsonType", Value.str "nope")]).2
      = some (LoopExit.returned
          [("a", [("string", ⟨some (InterfaceBson.TypeBsonString
              { BsonType := ["string"], Title := none, Description := none,
                Enum := none })⟩)]),
           ("b", [("nope", ⟨none⟩)])]
          (some "type not implemented yet")) :=
    populateTypes_cons_err sampleCollaborators "b" _ "nope" [] _ _ none _
      (dispatcher_other sampleCollaborators (some _) "b" "nope" _ (by decide) (by decide))
  have hc := (populateCells_cons_finished sampleCollaborators "a" _
      [("b", Value.obj [("bsonType", Value.str "nope")])] [] _ none none ha).trans
    (populateCells_cons_returned sampleCollaborators "b" _ [] _ _ none _ hb)
  have hp := (populateBsonType_of_properties sampleCollaborators
    ([("bsonType", Value.str "object"),
         ("properties", Value.obj
           [("a", Value.obj [("bsonType", Value.str "string")]),
            ("b", Value.obj [("bsonType", Value.str "nope")])])])
    ([("a", Value.obj [("bsonType", Value.str "string")]),
            ("b", Value.obj [("bsonType", Value.str "nope")])]) rfl).trans
    (congrArg (Option.map LoopExit.results) hc)
  have hhead : populateHead sampleCollaborators (zeroObject sampleCollaborators)
      [("bsonType", Value.str "object"),
         ("properties", Value.obj
           [("a", Value.obj [("bsonType", Value.str "string")]),
            ("b", Value.obj [("bsonType", Value.str "nope")])])]
      = some ({ zeroObject sampleCollaborators with
            Common := { BsonType := ["object"], Title := none, Description := none,
                        Enum := none } }, none) := rfl
  rw [Populate_of_head_ok sampleCollaborators _ _ _ _ _ hhead hp]
  rfl

/-- C6 (defect of the code): the error of `getPropertyBsonTypeAsSlice` is not
checked in `populateBsonType`.  When `a` declares the number 5 and is visited
before a property without declared type, or when `a` declares
`["timestamp", 5]`, the declared type of `a` is malformed and the properties
step returns no error, so that Object Populate returns no error. -/
theorem malformed_declared_type_error_is_lost (env : Collaborators κ δ) :
    ((getPropertyBsonTypeAsSlice [("bsonType", Value.num 5)]).2 ≠ none ∧
      populateBsonType env
          [("bsonType", Value.str "object"),
           ("properties", Value.obj [("a", Value.obj [("bsonType", Value.num 5)]),
                                     ("b", Value.obj [])])]
        = some ([], none)) ∧
    ((getPropertyBsonTypeAsSlice
        [("bsonType", Value.arr [Value.str "timestamp", Value.num 5])]).2 ≠ none ∧
      populateBsonType env
          [("bsonType", Value.str "object"),
           ("properties", Value.obj
             [("a", Value.obj [("bsonType", Value.arr [Value.str "timestamp", Value.num 5])])])]
        = some ([("a", [("timestamp", ⟨none⟩)])], none)) ∧
    (Populate sampleCollaborators (zeroObject sampleCollaborators)
        [("bsonType", Value.str "object"),
         ("properties", Value.obj [("a", Value.obj [("bsonType", Value.num 5)]),
                                   ("b", Value.obj [])])]).map Prod.snd = some none := by
  have h1 : populateBsonType env
      [("bsonType", Value.str "object"),
       ("properties", Value.obj [("a", Value.obj [("bsonType", Value.num 5)]),
                                 ("b", Value.obj [])])]
      = some ([], none) :=
    (populateBsonType_of_properties env
      ([("bsonType", Value.str "object"),
       ("properties", Value.obj [("a", Value.obj [("bsonType", Value.num 5)]),
                                 ("b", Value.obj [])])])
      ([("a", Value.obj [("bsonType", Value.num 5)]), ("b", Value.obj [])])
      rfl).trans
      (congrArg (Option.map LoopExit.results)
        ((populateCells_cons_finished env "a" [("bsonType", Value.num 5)]
            [("b", Value.obj [])] [] [] none _
            (populateTypes_nil env "a" _ [] _)).trans
          ((populateCells_cons_finished env "b" [] [] [] [] _ none
              (populateTypes_nil env "b" _ [] _)).trans
            (populateCells_nil env [] none))))
  have h1' : populateBsonType sampleCollaborators
      [("bsonType", Value.str "object"),
       ("properties", Value.obj [("a", Value.obj [("bsonType", Value.num 5)]),
                                 ("b", Value.obj [])])]
      = some ([], none) :=
    (populateBsonType_of_properties sampleCollaborators
      ([("bsonType", Value.str "object"),
       ("properties", Value.obj [("a", Value.obj [("bsonType", Value.num 5)]),
                                 ("b", Value.obj [])])])
      ([("a", Value.obj [("bsonType", Value.num 5)]), ("b", Value.obj [])])
      rfl).trans
      (congrArg (Option.map LoopExit.results)
        ((populateCells_cons_finished sampleCollaborators "a" [("bsonType", Value.num 5)]
            [("b", Value.obj [])] [] [] none _
            (populateTypes_nil sampleCollaborators "a" _ [] _)).trans
          ((populateCells_cons_finished sampleCollaborators "b" [] [] [] [] _ none
              (populateTypes_nil sampleCollaborators "b" _ [] _)).trans
            (populateCells_nil sampleCollaborators [] none))))
  have h2 : populateBsonType env
      [("bsonType", Value.str "object"),
       ("properties", Value.obj
         [("a", Value.obj [("bsonType", Value.arr [Value.str "timestamp", Value.num 5])])])]
      = some ([("a", [("timestamp", ⟨none⟩)])], none) :=
    (populateBsonType_of_properties env
      ([("bsonType", Value.str "object"),
       ("properties", Value.obj
         [("a", Value.obj [("bsonType", Value.arr [Value.str "timestamp", Value.num 5])])])])
      (
        [("a", Value.obj [("bsonType", Value.arr [Value.str "timestamp", Value.num 5])])])
      rfl).trans
      (congrArg (Option.map LoopExit.results)
        ((populateCells_cons_finished env "a"
            [("bsonType", Value.arr [Value.str "timestamp", Value.num 5])] [] []
            [("a", [("timestamp", ⟨none⟩)])] none none
            ((populateTypes_cons_ok env "a" _ "timestamp" [] [] _ _
                (dispatcher_timestamp env (some []) "a" _)).trans
              (populateTypes_nil env "a" _ _ none))).trans
          (populateCells_nil env _ none)))
  have hhead : populateHead sampleCollaborators (zeroObject sampleCollaborators)
      [("bsonType", Value.str "object"),
       ("properties", Value.obj [("a", Value.obj [("bsonType", Value.num 5)]),
                                 ("b", Value.obj [])])]
      = some ({ zeroObject sampleCollaborators with
            Common := { BsonType := ["object"], Title := none, Description := none,
                        Enum := none } }, none) := rfl
  refine ⟨⟨by decide, h1⟩, ⟨by decide, h2⟩, ?_⟩
  rw [Populate_of_head_ok sampleCollaborators _ _ _ _ _ hhead h1']
  rfl

/-- C7, as amended: a `required` key holding a value that is not a list is
ignored by `populateRequired` (the object is unchanged and no error is
returned), and a `properties` key holding a value that is not a keyed mapping
is ignored by `populateBsonType` (the map is empty and no error is
returned). -/
theorem wrong_kind_required_and_properties_are_ignored (env : Collaborators κ δ)
    (el : TypeBsonObject κ δ) (schema : Schema) :
    ((∀ requiredList, mapGet schema "required" ≠ some (Value.arr requiredList)) →
      populateRequired el schema = some (el, none)) ∧
    ((∀ newSchema, mapGet schema "properties" ≠ some (Value.obj newSchema)) →
      populateBsonType env schema = some ([], none)) := by
  refine ⟨fun h => ?_, fun h => populateBsonType_of_not_properties env _ h⟩
  have hs : populateRequiredSupport el.Required "" schema = some (el.Required, none) := by
    unfold populateRequiredSupport
    split
    · rename_i requiredList hr
      exact absurd hr (h requiredList)
    · rfl
  unfold populateRequired
  rw [hs]

/-- Witness of C7 as amended: `required` holds a string and `properties` a
list. -/
theorem wrong_kind_required_and_properties_are_ignored_witness :
    populateRequired (zeroObject sampleCollaborators)
        [("required", Value.str "name"), ("properties", Value.arr [Value.str "name"])]
      = some (zeroObject sampleCollaborators, none) ∧
    populateBsonType sampleCollaborators
        [("required", Value.str "name"), ("properties", Value.arr [Value.str "name"])]
      = some ([], none) :=
  ⟨(wrong_kind_required_and_properties_are_ignored sampleCollaborators
      (zeroObject sampleCollaborators)
      [("required", Value.str "name"), ("properties", Value.arr [Value.str "name"])]).1
      (by intro requiredList h; simp [mapGet] at h),
   (wrong_kind_required_and_properties_are_ignored sampleCollaborators
      (zeroObject sampleCollaborators)
      [("required", Value.str "name"), ("properties", Value.arr [Value.str "name"])]).2
      (by intro newSchema h; simp [mapGet] at h)⟩

/-- Counterexample to C7 as stated: with `required` holding a string, and with
`properties` holding a list, Object Populate returns no error. -/
theorem wrong_kind_required_or_properties_no_error :
    (Populate sampleCollaborators (zeroObject sampleCollaborators)
        [("bsonType", Value.str "object"), ("required", Value.str "name")]).map Prod.snd
      = some none ∧
    (Populate sampleCollaborators (zeroObject sampleCollaborators)
        [("bsonType", Value.str "object"),
         ("properties", Value.arr [Value.str "name"])]).map Prod.snd
      = some none := by
  have hr : populateHead sampleCollaborators (zeroObject sampleCollaborators)
      [("bsonType", Value.str "object"), ("required", Value.str "name")]
      = some ({ zeroObject sampleCollaborators with
            Common := { BsonType := ["object"], Title := none, Description := none,
                        Enum := none } }, none) := rfl
  have hp : populateHead sampleCollaborators (zeroObject sampleCollaborators)
      [("bsonType", Value.str "object"), ("properties", Value.arr [Value.str "name"])]
      = some ({ zeroObject sampleCollaborators with
            Common := { BsonType := ["object"], Title := none, Description := none,
                        Enum := none } }, none) := rfl
  have hr' := populateBsonType_of_not_properties sampleCollaborators
    ([("bsonType", Value.str "object"), ("required", Value.str "name")])
    (by intro newSchema h; simp [mapGet] at h)
  have hp' := populateBsonType_of_not_properties sampleCollaborators
    ([("bsonType", Value.str "object"), ("properties", Value.arr [Value.str "name"])])
    (by intro newSchema h; simp [mapGet] at h)
  rw [Populate_of_head_ok sampleCollaborators _ _ _ _ _ hr hr',
    Populate_of_head_ok sampleCollaborators _ _ _ _ _ hp hp']
  exact ⟨rfl, rfl⟩

/-- C9 (defect of the code): a property whose schema node supplies no
`bsonType` gets no child at all.  For the enum-only property `color`,
`getPropertyBsonTypeAsSlice` gives no type name, the dispatcher is never
called, and a successful Object Populate leaves `Properties` without an entry
for `color`: no Generic element is built. -/
theorem property_without_declared_type_gets_no_child (env : Collaborators κ δ) :
    populateBsonType env
        [("bsonType", Value.str "object"),
         ("properties", Value.obj
           [("color", Value.obj [("enum", Value.arr [Value.str "red", Value.str "green"])])])]
      = some ([], none) ∧
    (Populate sampleCollaborators (zeroObject sampleCollaborators)
        [("bsonType", Value.str "object"),
         ("properties", Value.obj
           [("color", Value.obj [("enum", Value.arr [Value.str "red", Value.str "green"])])])]).map
        (fun r => (r.1.Properties, r.2))
      = some (some [], none) ∧
    entryAt ([] : Properties κ δ) "color" "generic" = none := by
  have h : ∀ {κ' δ' : Type} (env' : Collaborators κ' δ'), populateBsonType env'
      [("bsonType", Value.str "object"),
       ("properties", Value.obj
         [("color", Value.obj [("enum", Value.arr [Value.str "red", Value.str "green"])])])]
      = some ([], none) := fun env' =>
    (populateBsonType_of_properties env'
      ([("bsonType", Value.str "object"),
       ("properties", Value.obj
         [("color", Value.obj [("enum", Value.arr [Value.str "red", Value.str "green"])])])])
      (
        [("color", Value.obj [("enum", Value.arr [Value.str "red", Value.str "green"])])])
      rfl).trans
      (congrArg (Option.map LoopExit.results)
        ((populateCells_cons_finished env' "color"
            [("enum", Value.arr [Value.str "red", Value.str "green"])] [] [] [] none none
            (populateTypes_nil env' "color" _ [] _)).trans
          (populateCells_nil env' [] none)))
  have hhead : populateHead sampleCollaborators (zeroObject sampleCollaborators)
      [("bsonType", Value.str "object"),
       ("properties", Value.obj
         [("color", Value.obj [("enum", Value.arr [Value.str "red", Value.str "green"])])])]
      = some ({ zeroObject sampleCollaborators with
            Common := { BsonType := ["object"], Title := none, Description := none,
                        Enum := none } }, none) := rfl
  refine ⟨h env, ?_, rfl⟩
  rw [Populate_of_head_ok sampleCollaborators _ _ _ _ _ hhead (h sampleCollaborators)]
  rfl

/-- C10: when `required` holds a list of strings, `populateRequired` on a
fresh object returns no error and makes `Required` the set of the names of the
list: each name of the list is mapped to true, no other name (so no
dot-joined name) has an entry, and a name written twice is stored once.  The
result depends on the value of the `required` key of the schema only, so a
`required` list inside a nested property schema has no effect.  When the key
is absent, `Required` is left unset and no error is returned. -/
theorem populateRequired_of_string_list (env : Collaborators κ δ) (schema : Schema) :
    (∀ names : List String, mapGet schema "required" = some (Value.arr (names.map Value.str)) →
      ∃ required, populateRequired (zeroObject env) schema
          = some ({ zeroObject env with Required := some required }, none) ∧
        (∀ k, mapGet required k = if k ∈ names then some true else none) ∧
        (required.map Prod.fst).Nodup) ∧
    (∀ schema' : Schema, mapGet schema' "required" = mapGet schema "required" →
      populateRequired (zeroObject env) schema' = populateRequired (zeroObject env) schema) ∧
    (mapGet schema "required" = none →
      populateRequired (zeroObject env) schema = some (zeroObject env, none) ∧
      (zeroObject env).Required = none) := by
  refine ⟨fun names h => ?_, fun schema' h => ?_, fun h => ⟨?_, rfl⟩⟩
  · refine ⟨names.foldl (fun m name => mapSet m name true) [], ?_, ?_, ?_⟩
    · unfold populateRequired populateRequiredSupport
      rw [h]
      simp only
      rw [show (zeroObject env).Required.getD [] = [] from rfl, requiredLoop_strings]
    · intro k
      rw [mapGet_foldl_mapSet_true]
      rfl
    · exact nodup_keys_foldl_mapSet names [] (by simp)
  · unfold populateRequired populateRequiredSupport
    rw [h]
  · unfold populateRequired populateRequiredSupport
    rw [h]

/-- Witness of C10: the list names `a` twice, and the nested schema of the
property `a` has a `required` list of its own; dropping the `properties` key
gives the same result; a schema without `required` leaves `Required` unset. -/
theorem populateRequired_of_string_list_witness :
    (∃ required, populateRequired (zeroObject sampleCollaborators)
        [("required", Value.arr [Value.str "a", Value.str "b", Value.str "a"]),
         ("properties", Value.obj
           [("a", Value.obj [("bsonType", Value.str "object"),
                             ("required", Value.arr [Value.str "x"])])])]
        = some ({ zeroObject sampleCollaborators with Required := some required }, none) ∧
      (∀ k, mapGet required k = if k ∈ ["a", "b", "a"] then some true else none) ∧
      (required.map Prod.fst).Nodup) ∧
    populateRequired (zeroObject sampleCollaborators)
        [("required", Value.arr [Value.str "a", Value.str "b", Value.str "a"])]
      = populateRequired (zeroObject sampleCollaborators)
        [("required", Value.arr [Value.str "a", Value.str "b", Value.str "a"]),
         ("properties", Value.obj
           [("a", Value.obj [("bsonType", Value.str "object"),
                             ("required", Value.arr [Value.str "x"])])])] ∧
    (populateRequired (zeroObject sampleCollaborators) [("bsonType", Value.str "object")]
      = some (zeroObject sampleCollaborators, none) ∧
      (zeroObject sampleCollaborators).Required = none) :=
  ⟨(populateRequired_of_string_list sampleCollaborators
      [("required", Value.arr [Value.str "a", Value.str "b", Value.str "a"]),
       ("properties", Value.obj
         [("a", Value.obj [("bsonType", Value.str "object"),
                           ("required", Value.arr [Value.str "x"])])])]).1
      ["a", "b", "a"] rfl,
    (populateRequired_of_string_list sampleCollaborators
      [("required", Value.arr [Value.str "a", Value.str "b", Value.str "a"]),
       ("properties", Value.obj
         [("a", Value.obj [("bsonType", Value.str "object"),
                           ("required", Value.arr [Value.str "x"])])])]).2.1
      [("required", Value.arr [Value.str "a", Value.str "b", Value.str "a"])] rfl,
    (populateRequired_of_string_list sampleCollaborators
      [("bsonType", Value.str "object")]).2.2 rfl⟩

/-- The entries after a successful `populateBsonType` on a schema whose
properties are all mappings with well-formed declared types:
`Properties[p][t]` exists exactly when `p` is a key of the raw `properties`
mapping and `t` is one of the declared type names of `p`; a property declared
with `k` distinct type names gets exactly `k` entries under its name (the keys
of a map being distinct); each entry holds a built child, the entries under
`timestamp` apart. -/
theorem populateBsonType_entries (env : Collaborators κ δ) (schema : Schema)
    (properties : Properties κ δ)
    (hwell : ∀ p v, (p, v) ∈ rawProperties schema →
      ∃ cell names, v = Value.obj cell ∧ declaredTypeNames cell = some names)
    (hok : populateBsonType env schema = some (properties, none)) :
    (∀ p t, entryAt properties p t ≠ none ↔
      ∃ cell names, (p, Value.obj cell) ∈ rawProperties schema ∧
        declaredTypeNames cell = some names ∧ t ∈ names) ∧
    (∀ p cell names, ((rawProperties schema).map Prod.fst).Nodup →
      (p, Value.obj cell) ∈ rawProperties schema → declaredTypeNames cell = some names →
      names.Nodup → ((mapGet properties p).getD []).length = names.length) ∧
    (∀ p t b, entryAt properties p t = some b → t ≠ "timestamp" → b.ElementType ≠ none) := by
  obtain ⟨i1, i2, i3⟩ := populateCells_finished env _ _ _ _ _
    (populateBsonType_ok_cells env schema properties hok)
  have hentry : ∀ p t, entryAt properties p t ≠ none ↔
      ∃ cell names, (p, Value.obj cell) ∈ rawProperties schema ∧
        declaredTypeNames cell = some names ∧ t ∈ names := by
    intro p t
    rw [i1]
    constructor
    · rintro (hx | ⟨cell, hc, hx⟩)
      · exact absurd rfl hx
      · obtain ⟨cell', names, hv, hd⟩ := hwell p _ hc
        injection hv with hv
        subst hv
        rw [getPropertyBsonTypeAsSlice_of_declared cell names hd] at hx
        exact ⟨cell, names, hc, hd, hx⟩
    · rintro ⟨cell, names, hc, hd, hx⟩
      refine Or.inr ⟨cell, hc, ?_⟩
      rw [getPropertyBsonTypeAsSlice_of_declared cell names hd]
      exact hx
  refine ⟨hentry, ?_, fun p t b hb ht => i3 (fun _ _ _ hn => by simp [entryAt, mapGet] at hn)
    p t b hb ht⟩
  intro p cell names hkeys hc hd hnames
  have hnodup : (typeNamesAt properties p).Nodup :=
    i2 (fun _ => by simp [typeNamesAt, mapGet]) p
  have hmem : ∀ t, t ∈ typeNamesAt properties p ↔ t ∈ names := by
    intro t
    rw [mem_typeNamesAt_iff, hentry]
    constructor
    · rintro ⟨cell', names', hc', hd', hx⟩
      have h1 := mapGet_of_mem_of_nodup _ _ _ hkeys hc
      have h2 := mapGet_of_mem_of_nodup _ _ _ hkeys hc'
      rw [h1] at h2
      injection h2 with h2
      injection h2 with h2
      subst h2
      rw [hd] at hd'
      injection hd' with hd'
      subst hd'
      exact hx
    · exact fun hx => ⟨cell, names, hc, hd, hx⟩
  have hperm := (List.perm_ext_iff_of_nodup hnodup hnames).2 hmem
  have hlen := hperm.length_eq
  unfold typeNamesAt at hlen
  rwa [List.length_map] at hlen

/-- An instance of `populateBsonType_entries`: `id` is declared with the union
of `string` and `int`, `name` with `string`. -/
theorem populateBsonType_entries_witness :
    (∀ p t, entryAt sampleProperties p t ≠ none ↔
      ∃ cell names, (p, Value.obj cell) ∈ rawProperties sampleSchema ∧
        declaredTypeNames cell = some names ∧ t ∈ names) ∧
    (∀ p cell names, ((rawProperties sampleSchema).map Prod.fst).Nodup →
      (p, Value.obj cell) ∈ rawProperties sampleSchema → declaredTypeNames cell = some names →
      names.Nodup → ((mapGet sampleProperties p).getD []).length = names.length) ∧
    (∀ p t b, entryAt sampleProperties p t = some b → t ≠ "timestamp" →
      b.ElementType ≠ none) := by
  have hid : populateTypes sampleCollaborators "id"
      [("bsonType", Value.arr [Value.str "string", Value.str "int"])]
      (getPropertyBsonTypeAsSlice
        [("bsonType", Value.arr [Value.str "string", Value.str "int"])]).1 []
      (getPropertyBsonTypeAsSlice
        [("bsonType", Value.arr [Value.str "string", Value.str "int"])]).2
      = some (LoopExit.finished
          [("id", [("string", ⟨some (InterfaceBson.TypeBsonString
                      { BsonType := ["string", "int"], Title := none, Description := none,
                        Enum := none })⟩),
                   ("int", ⟨some (InterfaceBson.TypeBsonInt
                      { BsonType := ["string", "int"], Title := none, Description := none,
                        Enum := none })⟩)])] none) :=
    (populateTypes_cons_ok sampleCollaborators "id" _ "string" ["int"] [] _ none
        (dispatcher_of_populateVariant_ok sampleCollaborators (some []) "id" "string"
          [("bsonType", Value.arr [Value.str "string", Value.str "int"])] _ rfl)).trans
      ((populateTypes_cons_ok sampleCollaborators "id" _ "int" [] _ _ none
          (dispatcher_of_populateVariant_ok sampleCollaborators (some _) "id" "int"
            [("bsonType", Value.arr [Value.str "string", Value.str "int"])] _ rfl)).trans
        (populateTypes_nil sampleCollaborators "id" _ _ none))
  have hname : populateTypes sampleCollaborators "name" [("bsonType", Value.str "string")]
      (getPropertyBsonTypeAsSlice [("bsonType", Value.str "string")]).1
      [("id", [("string", ⟨some (InterfaceBson.TypeBsonString
                  { BsonType := ["string", "int"], Title := none, Description := none,
                    Enum := none })⟩),
               ("int", ⟨some (InterfaceBson.TypeBsonInt
                  { BsonType := ["string", "int"], Title := none, Description := none,
                    Enum := none })⟩)])]
      (getPropertyBsonTypeAsSlice [("bsonType", Value.str "string")]).2
      = some (LoopExit.finished sampleProperties none) :=
    (populateTypes_cons_ok sampleCollaborators "name" _ "string" [] _ _ none
        (dispatcher_of_populateVariant_ok sampleCollaborators (some _) "name" "string"
          [("bsonType", Value.str "string")] _ rfl)).trans
      (populateTypes_nil sampleCollaborators "name" _ _ none)
  have hcells := (populateCells_cons_finished sampleCollaborators "id" _
      [("name", Value.obj [("bsonType", Value.str "string")])] [] _ none none hid).trans
    ((populateCells_cons_finished sampleCollaborators "name" _ [] _ _ none none hname).trans
      (populateCells_nil sampleCollaborators _ none))
  have hok : populateBsonType sampleCollaborators sampleSchema
      = some (sampleProperties, none) :=
    (populateBsonType_of_properties sampleCollaborators (sampleSchema)
      ([("id", Value.obj [("bsonType",
          Value.arr [Value.str "string", Value.str "int"])]),
        ("name", Value.obj [("bsonType", Value.str "string")])]) rfl).trans
      (congrArg (Option.map LoopExit.results) hcells)
  have hwell : ∀ p v, (p, v) ∈ rawProperties sampleSchema →
      ∃ cell names, v = Value.obj cell ∧ declaredTypeNames cell = some names := by
    intro p v h
    have hraw : rawProperties sampleSchema
        = [("id", Value.obj [("bsonType", Value.arr [Value.str "string", Value.str "int"])]),
           ("name", Value.obj [("bsonType", Value.str "string")])] := rfl
    rw [hraw] at h
    simp only [List.mem_cons, Prod.mk.injEq, List.mem_singleton, List.not_mem_nil,
      or_false] at h
    rcases h with ⟨-, rfl⟩ | ⟨-, rfl⟩
    · exact ⟨_, ["string", "int"], rfl, rfl⟩
    · exact ⟨_, ["string"], rfl, rfl⟩
  exact populateBsonType_entries sampleCollaborators sampleSchema sampleProperties hwell hok

/-- C8 (defect of the code): a property declared with a union of `k` distinct
type names does not always get `k` built child validators.  The property `x`
declares the well-formed union of `string` and `timestamp`; `populateBsonType`
succeeds, `Properties["x"]` has the two entries, and the entry under
`timestamp` holds no element, so one child validator is built for two
declared type names. -/
theorem union_with_timestamp_builds_one_child :
    declaredTypeNames [("bsonType", Value.arr [Value.str "string", Value.str "timestamp"])]
      = some ["string", "timestamp"] ∧
    populateBsonType sampleCollaborators
        [("bsonType", Value.str "object"),
         ("properties", Value.obj
           [("x", Value.obj
             [("bsonType", Value.arr [Value.str "string", Value.str "timestamp"])])])]
      = some ([("x", [("string", ⟨some (InterfaceBson.TypeBsonString
                  { BsonType := ["string", "timestamp"], Title := none, Description := none,
                    Enum := none })⟩),
                      ("timestamp", ⟨none⟩)])], none) ∧
    entryAt ([("x", [("string", ⟨some (InterfaceBson.TypeBsonString
                  { BsonType := ["string", "timestamp"], Title := none, Description := none,
                    Enum := none })⟩),
                     ("timestamp", ⟨none⟩)])] : Properties CommonFields CommonFields)
        "x" "timestamp" = some ⟨none⟩ := by
  have hx : populateTypes sampleCollaborators "x"
      [("bsonType", Value.arr [Value.str "string", Value.str "timestamp"])]
      (getPropertyBsonTypeAsSlice
        [("bsonType", Value.arr [Value.str "string", Value.str "timestamp"])]).1 []
      (getPropertyBsonTypeAsSlice
        [("bsonType", Value.arr [Value.str "string", Value.str "timestamp"])]).2
      = some (LoopExit.finished
          [("x", [("string", ⟨some (InterfaceBson.TypeBsonString
                      { BsonType := ["string", "timestamp"], Title := none,
                        Description := none, Enum := none })⟩),
                  ("timestamp", ⟨none⟩)])] none) :=
    (populateTypes_cons_ok sampleCollaborators "x" _ "string" ["timestamp"] [] _ none
        (dispatcher_of_populateVariant_ok sampleCollaborators (some []) "x" "string"
          [("bsonType", Value.arr [Value.str "string", Value.str "timestamp"])] _ rfl)).trans
      ((populateTypes_cons_ok sampleCollaborators "x" _ "timestamp" [] _ _ none
          (dispatcher_timestamp sampleCollaborators (some _) "x" _)).trans
        (populateTypes_nil sampleCollaborators "x" _ _ none))
  refine ⟨rfl, ?_, rfl⟩
  exact (populateBsonType_of_properties sampleCollaborators
    [("bsonType", Value.str "object"),
     ("properties", Value.obj
       [("x", Value.obj
         [("bsonType", Value.arr [Value.str "string", Value.str "timestamp"])])])]
    [("x", Value.obj [("bsonType", Value.arr [Value.str "string", Value.str "timestamp"])])]
    rfl).trans
    (congrArg (Option.map LoopExit.results)
      ((populateCells_cons_finished sampleCollaborators "x" _ [] [] _ none none hx).trans
        (populateCells_nil sampleCollaborators _ none)))

/-- C11: `getPropertyMinProperties` (resp. `getPropertyMaxProperties`) reports
`set = true` exactly when the schema contains the key `minProperties` (resp.
`maxProperties`); with the key absent it returns `(false, 0, nil)`, and with
the key present and read as the integer 0 without error it returns
`(true, 0, nil)`.  A successful Object Populate stores these results, so the
populated object tells an unset bound from a bound of zero. -/
theorem min_max_properties_set_iff_key_present (env : Collaborators κ δ) (schema : Schema) :
    ((getPropertyMinProperties env schema).1 = true ↔ mapGet schema "minProperties" ≠ none) ∧
    ((getPropertyMaxProperties env schema).1 = true ↔ mapGet schema "maxProperties" ≠ none) ∧
    (mapGet schema "minProperties" = none →
      getPropertyMinProperties env schema = (false, 0, none)) ∧
    (mapGet schema "maxProperties" = none →
      getPropertyMaxProperties env schema = (false, 0, none)) ∧
    (mapGet schema "minProperties" ≠ none →
      env.getPropertyAsInt64 schema "minProperties" = (0, none) →
      getPropertyMinProperties env schema = (true, 0, none)) ∧
    (mapGet schema "maxProperties" ≠ none →
      env.getPropertyAsInt64 schema "maxProperties" = (0, none) →
      getPropertyMaxProperties env schema = (true, 0, none)) ∧
    (∀ el el' : TypeBsonObject κ δ, Populate env el schema = some (el', none) →
      (el'.MinPropertiesHasSet = true ↔ mapGet schema "minProperties" ≠ none) ∧
      (el'.MaxPropertiesHasSet = true ↔ mapGet schema "maxProperties" ≠ none)) := by
  have hmin : (getPropertyMinProperties env schema).1 = true ↔
      mapGet schema "minProperties" ≠ none := by
    unfold getPropertyMinProperties
    cases mapGet schema "minProperties" <;> simp
  have hmax : (getPropertyMaxProperties env schema).1 = true ↔
      mapGet schema "maxProperties" ≠ none := by
    unfold getPropertyMaxProperties
    cases mapGet schema "maxProperties" <;> simp
  refine ⟨hmin, hmax, ?_, ?_, ?_, ?_, ?_⟩
  · intro h
    unfold getPropertyMinProperties
    rw [h]
  · intro h
    unfold getPropertyMaxProperties
    rw [h]
  · intro h h0
    unfold getPropertyMinProperties
    cases hk : mapGet schema "minProperties" with
    | none => exact absurd hk h
    | some v => simp only [h0]
  · intro h h0
    unfold getPropertyMaxProperties
    cases hk : mapGet schema "maxProperties" with
    | none => exact absurd hk h
    | some v => simp only [h0]
  · intro el el' h
    obtain ⟨h1, h2⟩ := Populate_ok_bounds env el el' schema h
    rw [← hmin, ← hmax, ← h1, ← h2]
    exact ⟨Iff.rfl, Iff.rfl⟩

/-- Witness of C11: `minProperties` is 0 and `maxProperties` is absent; the
object populated from this schema has `MinPropertiesHasSet` true with
`MinProperties` 0, and `MaxPropertiesHasSet` false. -/
theorem min_max_properties_set_iff_key_present_witness :
    getPropertyMinProperties sampleCollaborators [("minProperties", Value.num 0)]
      = (true, 0, none) ∧
    getPropertyMaxProperties sampleCollaborators [("minProperties", Value.num 0)]
      = (false, 0, none) ∧
    ((({ zeroObject sampleCollaborators with
          MinPropertiesHasSet := true
          Properties := some [] } : TypeBsonObject CommonFields CommonFields).MinPropertiesHasSet
        = true ↔ mapGet [("minProperties", Value.num 0)] "minProperties" ≠ none) ∧
     (({ zeroObject sampleCollaborators with
          MinPropertiesHasSet := true
          Properties := some [] } : TypeBsonObject CommonFields CommonFields).MaxPropertiesHasSet
        = true ↔ mapGet [("minProperties", Value.num 0)] "maxProperties" ≠ none)) := by
  have hhead : populateHead sampleCollaborators (zeroObject sampleCollaborators)
      [("minProperties", Value.num 0)]
      = some ({ zeroObject sampleCollaborators with MinPropertiesHasSet := true }, none) := rfl
  have hp : Populate sampleCollaborators (zeroObject sampleCollaborators)
      [("minProperties", Value.num 0)]
      = some ({ zeroObject sampleCollaborators with
                  MinPropertiesHasSet := true
                  Properties := some [] }, none) :=
    Populate_of_head_ok sampleCollaborators _ _ _ _ _ hhead
      (populateBsonType_of_not_properties sampleCollaborators _
        (by intro newSchema h; simp [mapGet] at h))
  exact ⟨(min_max_properties_set_iff_key_present sampleCollaborators
      [("minProperties", Value.num 0)]).2.2.2.2.1 (by simp [mapGet]) rfl,
    (min_max_properties_set_iff_key_present sampleCollaborators
      [("minProperties", Value.num 0)]).2.2.2.1 rfl,
    (min_max_properties_set_iff_key_present sampleCollaborators
      [("minProperties", Value.num 0)]).2.2.2.2.2.2 _ _ hp⟩

/-- C12, as amended: Object Populate does not parse `patternProperties`,
`additionalProperties` or `dependencies`.  Whatever the schema declares under
these keys, and whether it succeeds or fails, `PatternProperties`, the three
additional-properties fields and `Dependencies` are left as they were before
the call (empty or unset on a fresh object). -/
theorem Populate_leaves_pattern_additional_dependencies (env : Collaborators κ δ)
    (el el' : TypeBsonObject κ δ) (schema : Schema) (err : Option GoError)
    (h : Populate env el schema = some (el', err)) :
    el'.PatternProperties = el.PatternProperties ∧
    el'.AdditionalPropertiesBoolIsSet = el.AdditionalPropertiesBoolIsSet ∧
    el'.AdditionalPropertiesBoolValue = el.AdditionalPropertiesBoolValue ∧
    el'.AdditionalPropertiesMap = el.AdditionalPropertiesMap ∧
    el'.Dependencies = el.Dependencies :=
  Populate_frame env el el' schema err h

/-- The sample object populated from a schema that declares a pattern, forbids
additional properties and declares a dependency. -/
theorem Populate_sample_with_pattern_additional_dependencies :
    Populate sampleCollaborators (zeroObject sampleCollaborators)
        [("bsonType", Value.str "object"),
         ("patternProperties", Value.obj [("^x-", Value.obj [("bsonType", Value.str "string")])]),
         ("additionalProperties", Value.bool false),
         ("dependencies", Value.obj [("a", Value.arr [Value.str "b"])])]
      = some ({ zeroObject sampleCollaborators with
                  Common := { BsonType := ["object"], Title := none, Description := none,
                              Enum := none }
                  Properties := some [] }, none) := by
  have hhead : populateHead sampleCollaborators (zeroObject sampleCollaborators)
      [("bsonType", Value.str "object"),
       ("patternProperties", Value.obj [("^x-", Value.obj [("bsonType", Value.str "string")])]),
       ("additionalProperties", Value.bool false),
       ("dependencies", Value.obj [("a", Value.arr [Value.str "b"])])]
      = some ({ zeroObject sampleCollaborators with
            Common := { BsonType := ["object"], Title := none, Description := none,
                        Enum := none } }, none) := rfl
  exact Populate_of_head_ok sampleCollaborators _ _ _ _ _ hhead
    (populateBsonType_of_not_properties sampleCollaborators _
      (by intro newSchema h; simp [mapGet] at h))

/-- Witness of C12 as amended: the schema declares a pattern, forbids
additional properties and declares a dependency, and the fresh object keeps
the five fields as they were. -/
theorem Populate_leaves_pattern_additional_dependencies_witness :
    ({ zeroObject sampleCollaborators with
        Common := { BsonType := ["object"], Title := none, Description := none, Enum := none }
        Properties := some [] } : TypeBsonObject CommonFields CommonFields).PatternProperties
      = (zeroObject sampleCollaborators).PatternProperties ∧
    ({ zeroObject sampleCollaborators with
        Common := { BsonType := ["object"], Title := none, Description := none, Enum := none }
        Properties := some [] } :
        TypeBsonObject CommonFields CommonFields).AdditionalPropertiesBoolIsSet
      = (zeroObject sampleCollaborators).AdditionalPropertiesBoolIsSet ∧
    ({ zeroObject sampleCollaborators with
        Common := { BsonType := ["object"], Title := none, Description := none, Enum := none }
        Properties := some [] } :
        TypeBsonObject CommonFields CommonFields).AdditionalPropertiesBoolValue
      = (zeroObject sampleCollaborators).AdditionalPropertiesBoolValue ∧
    ({ zeroObject sampleCollaborators with
        Common := { BsonType := ["object"], Title := none, Description := none, Enum := none }
        Properties := some [] } :
        TypeBsonObject CommonFields CommonFields).AdditionalPropertiesMap
      = (zeroObject sampleCollaborators).AdditionalPropertiesMap ∧
    ({ zeroObject sampleCollaborators with
        Common := { BsonType := ["object"], Title := none, Description := none, Enum := none }
        Properties := some [] } : TypeBsonObject CommonFields CommonFields).Dependencies
      = (zeroObject sampleCollaborators).Dependencies :=
  Populate_leaves_pattern_additional_dependencies sampleCollaborators _ _ _ _
    Populate_sample_with_pattern_additional_dependencies

/-- Counterexample to C12 as stated: the schema declares one pattern, forbids
additional properties and declares one dependency; Object Populate succeeds,
`PatternProperties` has no entry, `AdditionalPropertiesBoolIsSet` is false
and `Dependencies` is unset. -/
theorem Populate_does_not_parse_pattern_additional_dependencies :
    (Populate sampleCollaborators (zeroObject sampleCollaborators)
        [("bsonType", Value.str "object"),
         ("patternProperties", Value.obj [("^x-", Value.obj [("bsonType", Value.str "string")])]),
         ("additionalProperties", Value.bool false),
         ("dependencies", Value.obj [("a", Value.arr [Value.str "b"])])]).map
        (fun r => (r.1.PatternProperties.length, r.1.AdditionalPropertiesBoolIsSet,
          r.1.Dependencies.isSome, r.2))
      = some (0, false, false, none) := by
  rw [Populate_sample_with_pattern_additional_dependencies]
  rfl

/-- C17: on success `getPropertyBsonTypeAsSlice` returns the declared type
names as written and in order: no name when `bsonType` is missing, the one
name `s` when it is the string `s`, and the same sequence of names (same
length, same order, repeated names kept) when it is an array of strings.
Every successful result is one of these three. -/
theorem getPropertyBsonTypeAsSlice_names_as_written (schema : Schema) :
    (mapGet schema "bsonType" = none → getPropertyBsonTypeAsSlice schema = ([], none)) ∧
    (∀ s, mapGet schema "bsonType" = some (Value.str s) →
      getPropertyBsonTypeAsSlice schema = ([s], none)) ∧
    (∀ names : List String, mapGet schema "bsonType" = some (Value.arr (names.map Value.str)) →
      getPropertyBsonTypeAsSlice schema = (names, none)) ∧
    ((getPropertyBsonTypeAsSlice schema).2 = none →
      mapGet schema "bsonType" = none ∧ (getPropertyBsonTypeAsSlice schema).1 = [] ∨
      (∃ s, mapGet schema "bsonType" = some (Value.str s) ∧
        (getPropertyBsonTypeAsSlice schema).1 = [s]) ∨
      ∃ names : List String, mapGet schema "bsonType" = some (Value.arr (names.map Value.str)) ∧
        (getPropertyBsonTypeAsSlice schema).1 = names) := by
  have harr : ∀ names : List String,
      mapGet schema "bsonType" = some (Value.arr (names.map Value.str)) →
      getPropertyBsonTypeAsSlice schema = (names, none) := by
    intro names h
    unfold getPropertyBsonTypeAsSlice
    rw [h]
    simpa using bsonTypeLoop_strings names []
  refine ⟨?_, ?_, harr, ?_⟩
  · intro h
    unfold getPropertyBsonTypeAsSlice
    rw [h]
  · intro s h
    unfold getPropertyBsonTypeAsSlice
    rw [h]
  · intro hok
    cases hb : mapGet schema "bsonType" with
    | none =>
      refine Or.inl ⟨rfl, ?_⟩
      unfold getPropertyBsonTypeAsSlice
      rw [hb]
    | some v =>
      cases v with
      | str s =>
        refine Or.inr (Or.inl ⟨s, rfl, ?_⟩)
        unfold getPropertyBsonTypeAsSlice
        rw [hb]
      | arr vs =>
        have hloop : (bsonTypeLoop vs []).2 = none := by
          unfold getPropertyBsonTypeAsSlice at hok
          rw [hb] at hok
          exact hok
        obtain ⟨names, hn⟩ := bsonTypeLoop_no_error vs [] hloop
        subst hn
        exact Or.inr (Or.inr ⟨names, rfl, by rw [harr names hb]⟩)
      | null => unfold getPropertyBsonTypeAsSlice at hok; rw [hb] at hok; simp at hok
      | bool b => unfold getPropertyBsonTypeAsSlice at hok; rw [hb] at hok; simp at hok
      | num n => unfold getPropertyBsonTypeAsSlice at hok; rw [hb] at hok; simp at hok
      | obj kvs => unfold getPropertyBsonTypeAsSlice at hok; rw [hb] at hok; simp at hok

/-- Witness of C17: the array `["string", "int", "string"]` comes back in the
same order with the repeated name kept. -/
theorem getPropertyBsonTypeAsSlice_names_as_written_witness :
    getPropertyBsonTypeAsSlice
        [("bsonType", Value.arr [Value.str "string", Value.str "int", Value.str "string"])]
      = (["string", "int", "string"], none) :=
  (getPropertyBsonTypeAsSlice_names_as_written
    [("bsonType", Value.arr [Value.str "string", Value.str "int", Value.str "string"])]).2.2.1
    ["string", "int", "string"] rfl

/-- C19: the result of Object Verify does not depend on the instance: for
every object validator and every two instance values, of any shape, `Verify`
returns the same result, the instance being passed to neither check. -/
theorem Verify_independent_of_instance (checks : Verifiers κ δ) (el : TypeBsonObject κ δ)
    (v₁ v₂ : Value) : Verify checks el v₁ = Verify checks el v₂ :=
  rfl

/-- C20: a dispatcher call for `(key, typeString)` changes at most the entry
`properties[key][typeString]` of the map: every entry under another property
key, and every entry under the same key with another type name, is the same
after the call as before it, whether the call returns an error or not. -/
theorem dispatcher_changes_one_entry (env : Collaborators κ δ)
    (propertiesPointer : Option (Properties κ δ)) (key typeString : String) (schema : Schema)
    (properties' : Properties κ δ) (err : Option GoError)
    (h : typeStringToTypeObjectPopulated env propertiesPointer key typeString schema
      = some (properties', err)) (p t : String) (hpt : ¬ (p = key ∧ t = typeString)) :
    entryAt properties' p t = entryAt (propertiesPointer.getD []) p t := by
  rw [typeStringToTypeObjectPopulated_eq] at h
  cases hs : switchTypeString env typeString schema with
  | none => rw [hs] at h; simp at h
  | some r =>
    rw [hs] at h
    cases r with
    | returned e =>
      simp only [Option.some.injEq, Prod.mk.injEq] at h
      rw [← h.1]
    | fellOut o e =>
      simp only [Option.some.injEq, Prod.mk.injEq] at h
      rw [← h.1]
      exact entryAt_storeElement_ne _ _ _ _ _ _ hpt

/-- Witness of C20: a successful call for `("id", "double")` on the sample map
leaves the entry `properties["id"]["string"]` as it was, and a failing call
for `("id", "date")` leaves the entry `properties["name"]["string"]` as it
was. -/
theorem dispatcher_changes_one_entry_witness :
    entryAt (storeElement sampleProperties "id" "double"
        (some (InterfaceBson.TypeBsonDouble
          { BsonType := ["double"], Title := none, Description := none, Enum := none })))
        "id" "string"
      = entryAt ((some sampleProperties).getD []) "id" "string" ∧
    entryAt (storeElement sampleProperties "id" "date" none) "name" "string"
      = entryAt ((some sampleProperties).getD []) "name" "string" :=
  ⟨dispatcher_changes_one_entry sampleCollaborators (some sampleProperties) "id" "double"
    [("bsonType", Value.str "double")] _ none
    (dispatcher_of_populateVariant_ok sampleCollaborators (some sampleProperties) "id" "double"
      [("bsonType", Value.str "double")] _ rfl)
    "id" "string" (by decide),
   dispatcher_changes_one_entry sampleCollaborators (some sampleProperties) "id" "date"
    [("bsonType", Value.str "date")] _ (some "type not implemented yet")
    (dispatcher_other sampleCollaborators (some sampleProperties) "id" "date"
      [("bsonType", Value.str "date")] (by decide) (by decide))
    "name" "string" (by decide)⟩

/-- C13, as amended: Object Verify has no step that checks the required
names.  An error returned by `Verify` is the error of the max check or the
error of the min check, and when both checks pass `Verify` returns no error,
whatever `Required` holds and whatever keys the instance has. -/
theorem Verify_has_no_required_check (checks : Verifiers κ δ) (el : TypeBsonObject κ δ)
    (value : Value) :
    (∀ e, Verify checks el value = some e →
      checks.verifyMaxProperties el = some e ∨ checks.verifyMinProperties el = some e) ∧
    (checks.verifyMaxProperties el = none → checks.verifyMinProperties el = none →
      Verify checks el value = none) := by
  constructor
  · intro e h
    unfold Verify at h
    cases hmax : checks.verifyMaxProperties el with
    | some emax =>
      rw [hmax] at h
      exact Or.inl h
    | none =>
      rw [hmax] at h
      exact Or.inr h
  · intro hmax hmin
    unfold Verify
    rw [hmax]
    exact hmin

/-- The sample validator built from a schema whose `required` lists `a` and
`b` and that states no other constraint. -/
theorem Populate_sample_with_required :
    Populate sampleCollaborators (zeroObject sampleCollaborators)
        [("bsonType", Value.str "object"),
         ("required", Value.arr [Value.str "a", Value.str "b"])]
      = some ({ zeroObject sampleCollaborators with
                  Common := { BsonType := ["object"], Title := none, Description := none,
                              Enum := none }
                  Properties := some []
                  Required := some [("a", true), ("b", true)] }, none) := by
  have hhead : populateHead sampleCollaborators (zeroObject sampleCollaborators)
      [("bsonType", Value.str "object"),
       ("required", Value.arr [Value.str "a", Value.str "b"])]
      = some ({ zeroObject sampleCollaborators with
            Common := { BsonType := ["object"], Title := none, Description := none,
                        Enum := none }
            Required := some [("a", true), ("b", true)] }, none) := rfl
  exact Populate_of_head_ok sampleCollaborators _ _ _ _ _ hhead
    (populateBsonType_of_not_properties sampleCollaborators _
      (by intro newSchema h; simp [mapGet] at h))

/-- Witness of C13 as amended: the validator requires `a` and `b`, the
instance `{"a": 1}` lacks `b`; with both checks passing `Verify` returns no
error, and with the min check failing the error of `Verify` is that one. -/
theorem Verify_has_no_required_check_witness :
    Verify (fixedVerifiers none none)
        ({ zeroObject sampleCollaborators with
            Common := { BsonType := ["object"], Title := none, Description := none,
                        Enum := none }
            Properties := some []
            Required := some [("a", true), ("b", true)] } :
          TypeBsonObject CommonFields CommonFields)
        (Value.obj [("a", Value.num 1)])
      = none ∧
    ((fixedVerifiers none (some "too few properties") :
        Verifiers CommonFields CommonFields).verifyMaxProperties
        { zeroObject sampleCollaborators with
            Common := { BsonType := ["object"], Title := none, Description := none,
                        Enum := none }
            Properties := some []
            Required := some [("a", true), ("b", true)] } = some "too few properties" ∨
      (fixedVerifiers none (some "too few properties") :
        Verifiers CommonFields CommonFields).verifyMinProperties
        { zeroObject sampleCollaborators with
            Common := { BsonType := ["object"], Title := none, Description := none,
                        Enum := none }
            Properties := some []
            Required := some [("a", true), ("b", true)] } = some "too few properties") :=
  ⟨(Verify_has_no_required_check (fixedVerifiers none none)
      ({ zeroObject sampleCollaborators with
          Common := { BsonType := ["object"], Title := none, Description := none,
                      Enum := none }
          Properties := some []
          Required := some [("a", true), ("b", true)] } :
        TypeBsonObject CommonFields CommonFields)
      (Value.obj [("a", Value.num 1)])).2 rfl rfl,
   (Verify_has_no_required_check (fixedVerifiers none (some "too few properties"))
      ({ zeroObject sampleCollaborators with
          Common := { BsonType := ["object"], Title := none, Description := none,
                      Enum := none }
          Properties := some []
          Required := some [("a", true), ("b", true)] } :
        TypeBsonObject CommonFields CommonFields)
      (Value.obj [("a", Value.num 1)])).1 "too few properties" rfl⟩

/-- Counterexample to C13 as stated: the validator is built from a schema that
requires `a` and `b` and sets no bound; with a max check and a min check that
pass, `Verify` returns no error on the instance `{"a": 1}`, which lacks
`b`. -/
theorem Verify_accepts_instance_lacking_required_key :
    Populate sampleCollaborators (zeroObject sampleCollaborators)
        [("bsonType", Value.str "object"),
         ("required", Value.arr [Value.str "a", Value.str "b"])]
      = some ({ zeroObject sampleCollaborators with
                  Common := { BsonType := ["object"], Title := none, Description := none,
                              Enum := none }
                  Properties := some []
                  Required := some [("a", true), ("b", true)] }, none) ∧
    ¬ ∀ (checks : Verifiers CommonFields CommonFields)
        (el : TypeBsonObject CommonFields CommonFields) (fields : List (String × Value)),
        el.Required = some [("a", true), ("b", true)] → mapGet fields "b" = none →
        Verify checks el (Value.obj fields) ≠ none := by
  refine ⟨Populate_sample_with_required, fun h => ?_⟩
  exact h (fixedVerifiers none none)
    { zeroObject sampleCollaborators with
        Common := { BsonType := ["object"], Title := none, Description := none, Enum := none }
        Properties := some []
        Required := some [("a", true), ("b", true)] }
    [("a", Value.num 1)] rfl rfl rfl

/-- C14 (defect of the code): `Verify` passes the instance to neither check,
so the min check cannot count the keys of the instance.  On the validator
built from a schema with `minProperties` 2 and no other constraint, `Verify`
returns the same result on the instance `{"a": 1}`, with one key, and on
`{"a": 1, "b": 2}`, with two keys, whatever the two checks are. -/
theorem Verify_same_on_one_key_and_two_keys (checks : Verifiers CommonFields CommonFields) :
    Populate sampleCollaborators (zeroObject sampleCollaborators)
        [("bsonType", Value.str "object"), ("minProperties", Value.num 2)]
      = some ({ zeroObject sampleCollaborators with
                  Common := { BsonType := ["object"], Title := none, Description := none,
                              Enum := none }
                  MinPropertiesHasSet := true
                  MinProperties := 2
                  Properties := some [] }, none) ∧
    Verify checks
        { zeroObject sampleCollaborators with
            Common := { BsonType := ["object"], Title := none, Description := none,
                        Enum := none }
            MinPropertiesHasSet := true
            MinProperties := 2
            Properties := some [] }
        (Value.obj [("a", Value.num 1)])
      = Verify checks
        { zeroObject sampleCollaborators with
            Common := { BsonType := ["object"], Title := none, Description := none,
                        Enum := none }
            MinPropertiesHasSet := true
            MinProperties := 2
            Properties := some [] }
        (Value.obj [("a", Value.num 1), ("b", Value.num 2)]) := by
  have hhead : populateHead sampleCollaborators (zeroObject sampleCollaborators)
      [("bsonType", Value.str "object"), ("minProperties", Value.num 2)]
      = some ({ zeroObject sampleCollaborators with
            Common := { BsonType := ["object"], Title := none, Description := none,
                        Enum := none }
            MinPropertiesHasSet := true
            MinProperties := 2 }, none) := rfl
  exact ⟨Populate_of_head_ok sampleCollaborators _ _ _ _ _ hhead
    (populateBsonType_of_not_properties sampleCollaborators _
      (by intro newSchema h; simp [mapGet] at h)), rfl⟩

/-- C16, as amended: `Verify` applies the max check before the min check and
returns at the first error: when the max check fails its error is the one
returned, also when the min check would fail too; when the max check passes
the result is that of the min check. -/
theorem Verify_returns_max_error_first (checks : Verifiers κ δ) (el : TypeBsonObject κ δ)
    (value : Value) :
    (∀ emax, checks.verifyMaxProperties el = some emax → Verify checks el value = some emax) ∧
    (checks.verifyMaxProperties el = none →
      Verify checks el value = checks.verifyMinProperties el) := by
  constructor
  · intro emax h
    unfold Verify
    rw [h]
  · intro h
    unfold Verify
    rw [h]

/-- Witness of C16 as amended: both checks fail and the error of the max check
is returned; with the max check passing, the error of the min check is. -/
theorem Verify_returns_max_error_first_witness :
    Verify (fixedVerifiers (some "too many properties") (some "too few properties"))
        (zeroObject sampleCollaborators) (Value.obj [])
      = some "too many properties" ∧
    Verify (fixedVerifiers none (some "too few properties"))
        (zeroObject sampleCollaborators) (Value.obj [])
      = some "too few properties" :=
  ⟨(Verify_returns_max_error_first
      (fixedVerifiers (some "too many properties") (some "too few properties"))
      (zeroObject sampleCollaborators) (Value.obj [])).1 "too many properties" rfl,
   (Verify_returns_max_error_first (fixedVerifiers none (some "too few properties"))
      (zeroObject sampleCollaborators) (Value.obj [])).2 rfl⟩

/-- Counterexample to C16 as stated: with both checks failing, `Verify`
returns the error of the max check, not the error of the min check. -/
theorem Verify_does_not_return_min_error_first :
    ¬ ∀ (checks : Verifiers CommonFields CommonFields)
        (el : TypeBsonObject CommonFields CommonFields) (value : Value) (emax emin : GoError),
        checks.verifyMaxProperties el = some emax → checks.verifyMinProperties el = some emin →
        Verify checks el value = some emin := by
  intro h
  have hv := h (fixedVerifiers (some "too many properties") (some "too few properties"))
    (zeroObject sampleCollaborators) (Value.obj []) "too many properties" "too few properties"
    rfl rfl
  have hmax : Verify
      (fixedVerifiers (some "too many properties") (some "too few properties"))
      (zeroObject sampleCollaborators) (Value.obj []) = some "too many properties" := rfl
  rw [hmax] at hv
  exact absurd hv (by decide)

/-- C15 (defect of the code): after a successful Object Populate an entry can
hold a nil element under a type name that is not recognized.  The schema whose
property `t` declares `timestamp` is compiled without error, and
`Properties["t"]["timestamp"]` holds no element, `timestamp` not being one of
the nine names.  This is the only exception: after a successful Object
Populate every entry under another type name holds an element and its type
name is one of the nine. -/
theorem Populate_records_nil_element_for_timestamp (env : Collaborators κ δ) :
    (Populate sampleCollaborators (zeroObject sampleCollaborators)
        [("bsonType", Value.str "object"),
         ("properties", Value.obj [("t", Value.obj [("bsonType", Value.str "timestamp")])])]).map
        (fun r => (r.1.Properties, r.2))
      = some (some [("t", [("timestamp", ⟨none⟩)])], none) ∧
    "timestamp" ∉ recognizedNames ∧
    ∀ (el el' : TypeBsonObject κ δ) (schema : Schema) (properties : Properties κ δ),
      Populate env el schema = some (el', none) → el'.Properties = some properties →
      ∀ p t b, entryAt properties p t = some b → t ≠ "timestamp" →
        t ∈ recognizedNames ∧ b.ElementType ≠ none := by
  have hhead : populateHead sampleCollaborators (zeroObject sampleCollaborators)
      [("bsonType", Value.str "object"),
       ("properties", Value.obj [("t", Value.obj [("bsonType", Value.str "timestamp")])])]
      = some ({ zeroObject sampleCollaborators with
            Common := { BsonType := ["object"], Title := none, Description := none,
                        Enum := none } }, none) := rfl
  refine ⟨?_, by decide, fun el el' schema properties h hp =>
    EntriesKnown_of_Populate env el el' schema properties h hp⟩
  rw [Populate_of_head_ok sampleCollaborators _ _ _ _ _ hhead
    (populateBsonType_timestamp sampleCollaborators "t")]
  rfl

/-- C18: Object Populate terminates on every finite schema document.  One run
of the body of `Populate` enters `Populate` again only for schema nodes of the
raw `properties` mapping (the result is the same whatever is answered for
every other node), and each of these is strictly less deep than the schema.
So the build limited to `n` nested entries into `Populate` gives the result of
`Populate` as soon as `n` exceeds the nesting depth of the schema, whatever
stands beyond the limit. -/
theorem Populate_terminates_on_nesting_depth (env : Collaborators κ δ)
    (el : TypeBsonObject κ δ) (schema : Schema) :
    (∀ (base : TypeBsonObject κ δ → Schema → Option (TypeBsonObject κ δ × Option GoError))
        (n : Nat), depthFields schema < n →
      populateWithin env base n el schema = Populate env el schema) ∧
    Populate env el schema = populateWith (Populate env (zeroObject env)) env el schema ∧
    (∀ again₁ again₂ : Schema → Option (TypeBsonObject κ δ × Option GoError),
      (∀ key cell, (key, Value.obj cell) ∈ rawProperties schema → again₁ cell = again₂ cell) →
      populateWith again₁ env el schema = populateWith again₂ env el schema) ∧
    (∀ key cell, (key, Value.obj cell) ∈ rawProperties schema →
      depthFields cell < depthFields schema) := by
  refine ⟨fun base n h => populateWithin_eq_Populate env base n el schema h,
    Populate_eq_with env el schema,
    fun again₁ again₂ h => populateWith_congr again₁ again₂ env el schema h,
    fun key cell h => ?_⟩
  have := depthFields_nested schema key cell h
  omega

/-- Witness of C18: the property `address` is an object with a property `city`;
the schema has depth 4 and five nested entries suffice, every deeper entry
being answered by a panic. -/
theorem Populate_terminates_on_nesting_depth_witness :
    populateWithin sampleCollaborators (fun _ _ => none) 5 (zeroObject sampleCollaborators)
        [("bsonType", Value.str "object"),
         ("properties", Value.obj
           [("address", Value.obj
             [("bsonType", Value.str "object"),
              ("properties", Value.obj
                [("city", Value.obj [("bsonType", Value.str "string")])])])])]
      = Populate sampleCollaborators (zeroObject sampleCollaborators)
        [("bsonType", Value.str "object"),
         ("properties", Value.obj
           [("address", Value.obj
             [("bsonType", Value.str "object"),
              ("properties", Value.obj
                [("city", Value.obj [("bsonType", Value.str "string")])])])])] :=
  (Populate_terminates_on_nesting_depth sampleCollaborators (zeroObject sampleCollaborators)
    [("bsonType", Value.str "object"),
     ("properties", Value.obj
       [("address", Value.obj
         [("bsonType", Value.str "object"),
          ("properties", Value.obj
            [("city", Value.obj [("bsonType", Value.str "string")])])])])]).1
    (fun _ _ => none) 5 (by decide)

end Claims

end BsonObject
